import Mathlib

/-!
# ScreenBlackout: display identification and the blackout render loop

A shallow embedding of `ScreenBlackout.cpp`.  Bytes, UTF-16 code units and
machine integers are natural numbers or integers; the outcomes of platform
calls (device enumeration, registry reads, window and device creation, the
message queue) are explicit arguments of the functions that consume them.
-/

namespace ScreenBlackout

/-! ## GetMonitorFriendlyName -/

/-- Contents of a `std::wstring`: its UTF-16 code units, in order. -/
abbrev WString := List Nat

/-- The literal `L"Unknown Monitor"`. -/
def unknownMonitor : WString :=
  [85, 110, 107, 110, 111, 119, 110, 32, 77, 111, 110, 105, 116, 111, 114]

/-- The part of a buffer that a C string function sees: the elements before the first zero. -/
def cText (s : List Nat) : List Nat := s.takeWhile (fun c => c != 0)

/-- `MultiByteToWideChar(CP_UTF8, 0, name, -1, ...)`: converts the zero-terminated string in
`name`.  A string of 7-bit bytes is UTF-8 for the code points of the same values; any other
string is converted by the platform decoder `cv`.  With a source length of `-1` the terminator
is converted too and counted in the returned length, so the output ends in a zero. -/
def MultiByteToWideChar (cv : List Nat → List Nat) (name : List Nat) : WString :=
  (if (cText name).all (fun c => c < 128) then cText name else cv (cText name)) ++ [0]

/-- The test `edid[j] == 0x00 && edid[j + 1] == 0x00 && edid[j + 2] == 0x00 && edid[j + 3] == 0xFC`
with its short-circuit evaluation: the outcome and the indices of `edid` it read. -/
def tagTest (edid : List Nat) (j : Nat) : Bool × List Nat :=
  if edid.getD j 0 != 0x00 then (false, [j])
  else if edid.getD (j + 1) 0 != 0x00 then (false, [j, j + 1])
  else if edid.getD (j + 2) 0 != 0x00 then (false, [j, j + 1, j + 2])
  else (edid.getD (j + 3) 0 == 0xFC, [j, j + 1, j + 2, j + 3])

/-- The indices `memcpy(name, &edid[j + 5], 13)` reads. -/
def memcpyReads (j : Nat) : List Nat := (List.range 13).map (fun i => j + 5 + i)

/-- The buffer `char name[14] = {}` after `memcpy(name, &edid[j + 5], 13)`. -/
def copyName (edid : List Nat) (j : Nat) : List Nat :=
  (memcpyReads j).map (fun i => edid.getD i 0) ++ [0]

/-- The characters the trim loop removes: space, line feed, carriage return. -/
def isTrimChar (c : Nat) : Bool := c == 0x20 || c == 0x0A || c == 0x0D

/-- The loop `for (int k = 12; k >= 0; --k)` over `name`, entered with `k + 1` as first
argument: the buffer it leaves and the indices of `name` it touched. -/
def trimLoop : Nat → List Nat → List Nat × List Nat
  | 0, name => (name, [])
  | k + 1, name =>
    if isTrimChar (name.getD k 0) then
      ((trimLoop k (name.set k 0)).1, k :: (trimLoop k (name.set k 0)).2)
    else (name, [k])

/-- What the scan of one descriptor block did. -/
structure Scan where
  /-- The buffer `name` after trimming, when a record matched. -/
  name : Option (List Nat)
  /-- Indices of `edid` that were read, in program order. -/
  reads : List Nat
  /-- Indices of `name` the trim loop touched. -/
  touched : List Nat
  /-- Number of 18-byte records examined. -/
  records : Nat

/-- The loop `for (int j = 54; j + 17 < (int) edidSize; j += 18)` from offset `j` on, where
`edidSize` is the number of bytes the registry read stored (at most 256, the buffer size, so
the cast to `int` keeps its value). -/
def scanLoop (edid : List Nat) (j : Nat) : Scan :=
  if j + 17 < edid.length then
    if (tagTest edid j).1 then
      Scan.mk (some (trimLoop 13 (copyName edid j)).1)
        ((tagTest edid j).2 ++ memcpyReads j) (trimLoop 13 (copyName edid j)).2 1
    else
      Scan.mk (scanLoop edid (j + 18)).name ((tagTest edid j).2 ++ (scanLoop edid (j + 18)).reads)
        (scanLoop edid (j + 18)).touched ((scanLoop edid (j + 18)).records + 1)
  else Scan.mk none [] [] 0
termination_by edid.length - j

/-- The value the scan of one block assigns to `result`, if it assigns one. -/
def scanBlock (cv : List Nat → List Nat) (edid : List Nat) : Option WString :=
  (scanLoop edid 54).name.map (MultiByteToWideChar cv)

def ERROR_SUCCESS : Nat := 0

def REG_BINARY : Nat := 3

/-- One device of the monitor class, as the platform calls of one loop iteration report it. -/
structure MonitorDevice where
  /-- `SetupDiOpenDevRegKey` returned a key. -/
  hKey : Bool
  /-- Return value of `RegQueryValueExW`. -/
  status : Nat
  /-- Value type stored in `type`. -/
  type : Nat
  /-- The `edidSize` bytes stored in `edid`. -/
  edid : List Nat

/-- One iteration of the loop over devices: the new value of `result`. -/
def deviceStep (cv : List Nat → List Nat) (result : WString) (d : MonitorDevice) : WString :=
  if d.hKey then
    if d.status == ERROR_SUCCESS && d.type == REG_BINARY then
      match scanBlock cv d.edid with
      | some wname => wname
      | none => result
    else result
  else result

/-- `GetMonitorFriendlyName(deviceName)`; `hDevInfo` is `none` when `SetupDiGetClassDevsExW`
returns `INVALID_HANDLE_VALUE`, and otherwise the devices `SetupDiEnumDeviceInfo` yields. -/
def GetMonitorFriendlyName (cv : List Nat → List Nat) (_deviceName : WString)
    (hDevInfo : Option (List MonitorDevice)) : WString :=
  match hDevInfo with
  | none => unknownMonitor
  | some devs => devs.foldl (deviceStep cv) unknownMonitor


/-! ## Vocabulary of the claims about the descriptor scan -/

/-- The record at offset `j` starts with the bytes `00 00 00 FC`. -/
def hasNameTag (edid : List Nat) (j : Nat) : Bool :=
  edid.getD j 0 == 0x00 && edid.getD (j + 1) 0 == 0x00 && edid.getD (j + 2) 0 == 0x00 &&
    edid.getD (j + 3) 0 == 0xFC

/-- Offset `j` is one of `54, 72, 90, ...` and a whole 18-byte record at `j` lies inside a
block of `L` bytes. -/
def scannedOffset (L j : Nat) : Prop := 54 ≤ j ∧ (j - 54) % 18 = 0 ∧ j + 17 < L

instance (L j : Nat) : Decidable (scannedOffset L j) :=
  inferInstanceAs (Decidable (54 ≤ j ∧ (j - 54) % 18 = 0 ∧ j + 17 < L))

/-- The 13 name bytes of the record at offset `j`: block bytes `j + 5 .. j + 17`. -/
def payload (edid : List Nat) (j : Nat) : List Nat := (edid.drop (j + 5)).take 13

/-- A list with its maximal trailing run of space, line feed and carriage return removed. -/
def rtrim (s : List Nat) : List Nat := s.rdropWhile isTrimChar

/-- The name a candidate device contributes: the body of one iteration of the device loop,
`none` when it leaves `result` untouched. -/
def candidateName (cv : List Nat → List Nat) (d : MonitorDevice) : Option WString :=
  if d.hKey && d.status == ERROR_SUCCESS && d.type == REG_BINARY then scanBlock cv d.edid
  else none

/-- The name of the first candidate, in enumeration order, that contributes one. -/
def firstCandidateName (cv : List Nat → List Nat) (devs : List MonitorDevice) :
    Option WString :=
  devs.findSome? (candidateName cv)

/-! ## Sample blocks -/

/-- A 90-byte block: a range-limits record (`00 00 00 FD`) at offset 54 and a name record at
offset 72 holding `DELL U2415`, a line feed and two spaces. -/
def sampleEdid : List Nat :=
  List.replicate 54 0 ++
    [0, 0, 0, 0xFD, 0, 50, 75, 30, 83, 17, 0, 10, 32, 32, 32, 32, 32, 32] ++
    [0, 0, 0, 0xFC, 0, 68, 69, 76, 76, 32, 85, 50, 52, 49, 53, 10, 32, 32]

/-- A platform decoder for the samples; none of them holds a byte above 127. -/
def sampleDecoder : List Nat → List Nat := fun _ => []

/-- A 72-byte block whose name record at offset 54 holds `ABC`, a line feed and nine zero
bytes. -/
def zeroPaddedEdid : List Nat :=
  List.replicate 54 0 ++ [0, 0, 0, 0xFC, 0, 65, 66, 67, 10, 0, 0, 0, 0, 0, 0, 0, 0, 0]

/-- A 72-byte block whose name record at offset 54 holds `ACME 27`, a line feed and spaces. -/
def acmeEdid : List Nat :=
  List.replicate 54 0 ++ [0, 0, 0, 0xFC, 0, 65, 67, 77, 69, 32, 50, 55, 10, 32, 32, 32, 32, 32]

/-- A 90-byte block with no name record: two range-limits records. -/
def namelessEdid : List Nat :=
  List.replicate 54 0 ++
    [0, 0, 0, 0xFD, 0, 50, 75, 30, 83, 17, 0, 10, 32, 32, 32, 32, 32, 32] ++
    [0, 0, 0, 0xFD, 0, 50, 75, 30, 83, 17, 0, 10, 32, 32, 32, 32, 32, 32]

/-- A device whose key opens and whose `EDID` value is the binary block `edid`. -/
def readableDevice (edid : List Nat) : MonitorDevice :=
  MonitorDevice.mk true ERROR_SUCCESS REG_BINARY edid

/-! ## EnumerateMonitors -/

/-- `RECT`, with `LONG` fields. -/
structure RECT where
  left : Int
  top : Int
  right : Int
  bottom : Int
  deriving DecidableEq

/-- The fields of `MONITORINFOEXW` the program reads. -/
structure MONITORINFOEXW where
  rcMonitor : RECT
  szDevice : WString
  deriving DecidableEq

structure MonitorInfo where
  hMon : Nat
  info : MONITORINFOEXW
  friendlyName : WString
  deriving DecidableEq

/-- One output `EnumDisplayMonitors` reports, with what the calls made from its callback
yield: `GetMonitorInfoW` (`none` when it fails) and the device set that
`GetMonitorFriendlyName` sees. -/
structure DisplayOutput where
  hMon : Nat
  monitorInfo : Option MONITORINFOEXW
  hDevInfo : Option (List MonitorDevice)

/-- The callback passed to `EnumDisplayMonitors`; `vec` is the vector behind `data`.  It
returns `TRUE` in every case, so the enumeration goes on to the next output. -/
def monitorEnumProc (cv : List Nat → List Nat) (vec : List MonitorInfo) (o : DisplayOutput) :
    List MonitorInfo :=
  match o.monitorInfo with
  | some info =>
    vec ++ [MonitorInfo.mk o.hMon info (GetMonitorFriendlyName cv info.szDevice o.hDevInfo)]
  | none => vec

/-- `EnumerateMonitors()`; `outputs` are the outputs the platform reports, in its order. -/
def EnumerateMonitors (cv : List Nat → List Nat) (outputs : List DisplayOutput) :
    List MonitorInfo :=
  outputs.foldl (monitorEnumProc cv) []

/-- `std::to_wstring(i)` for a `size_t`: the decimal digits of `i`. -/
def to_wstring (i : Nat) : WString := (Nat.toDigits 10 i).map Char.toNat

/-- The string `L"[" + std::to_wstring(i) + L"]: " + m.friendlyName`. -/
def monitorOption (i : Nat) (m : MonitorInfo) : WString :=
  [91] ++ to_wstring i ++ [93, 58, 32] ++ m.friendlyName

/-- The loop of `WM_INITDIALOG` in `LauncherDlgProc`: for `i = 0, 1, ...` below the size of
the vector, the index `i` and the string added to the combo box for it. -/
def comboItems (mons : List MonitorInfo) : List (Nat × WString) :=
  mons.enum.map (fun im => (im.1, monitorOption im.1 im.2))

/-- The descriptor `EnumerateMonitors` builds for an output whose query succeeded. -/
def describeOutput (cv : List Nat → List Nat) (o : DisplayOutput) : Option MonitorInfo :=
  o.monitorInfo.map
    (fun info => MonitorInfo.mk o.hMon info (GetMonitorFriendlyName cv info.szDevice o.hDevInfo))

/-! ## The renderer -/

/-- Conversion to a 32-bit `int`: the value modulo `2^32` in `-2^31 .. 2^31 - 1`. -/
def toInt32 (z : Int) : Int := (z + 2147483648) % 4294967296 - 2147483648

/-- Conversion to a 32-bit `UINT`. -/
def toUInt32 (z : Int) : Int := z % 4294967296

/-- The nearest value with a 24-bit significand, ties to even: what a `float` holds after
conversion from an integer of magnitude `m ≤ 2^31`.  Up to `2^24` every integer is held
exactly; above, the lowest `e` bits are rounded away, `e` being the least shift that leaves
fewer than 25 bits. -/
def roundToFloat (m : Nat) : Nat :=
  if m ≤ 16777216 then m
  else
    let e := ((List.range 9).find? (fun e => m / 2 ^ e < 16777216)).getD 8
    let q := m / 2 ^ e
    let r := m % 2 ^ e
    if 2 ^ (e - 1) < r ∨ (r = 2 ^ (e - 1) ∧ q % 2 = 1) then (q + 1) * 2 ^ e else q * 2 ^ e

/-- The cast `(float) n` of an `int`, as the integer value the `float` holds. -/
def floatOfInt (n : Int) : Int :=
  if n < 0 then -((roundToFloat n.natAbs : Nat) : Int) else ((roundToFloat n.natAbs : Nat) : Int)

def WM_DESTROY : Nat := 0x0002

def WM_QUIT : Nat := 0x0012

def WM_KEYDOWN : Nat := 0x0100

/-- A message `PeekMessageW` returns, with the value `GetKeyState(VK_CONTROL)` has while it
is handled (as an unsigned 16-bit pattern). -/
structure MSG where
  message : Nat
  wParam : Nat
  keyState : Nat
  deriving DecidableEq

/-- `RendererProc`: whether handling the message calls `PostQuitMessage(0)`. -/
def RendererProc (m : MSG) : Bool :=
  if m.message == WM_KEYDOWN then decide (m.keyState &&& 0x8000 ≠ 0) && m.wParam == 81
  else if m.message == WM_DESTROY then true
  else false

/-- The fields `InitD3D` sets in `DXGI_SWAP_CHAIN_DESC`. -/
structure DXGI_SWAP_CHAIN_DESC where
  BufferCount : Nat
  Width : Int
  Height : Int
  Format : Nat
  RefreshNumerator : Nat
  RefreshDenominator : Nat
  BufferUsage : Nat
  OutputWindow : Nat
  SampleCount : Nat
  Windowed : Bool
  SwapEffect : Nat
  deriving DecidableEq

/-- `D3D11_VIEWPORT`; each `FLOAT` field is given by the integer value it holds. -/
structure D3D11_VIEWPORT where
  TopLeftX : Int
  TopLeftY : Int
  Width : Int
  Height : Int
  MinDepth : Int
  MaxDepth : Int
  deriving DecidableEq

/-- What `InitD3D` leaves behind: its return value, the description the swap chain was
created from (when `D3D11CreateDeviceAndSwapChain` succeeded) and the viewport set by
`RSSetViewports` (when that call was reached). -/
structure D3DState where
  ok : Bool
  swapChain : Option DXGI_SWAP_CHAIN_DESC
  viewport : Option D3D11_VIEWPORT
  deriving DecidableEq

def DXGI_FORMAT_R8G8B8A8_UNORM : Nat := 28

def DXGI_USAGE_RENDER_TARGET_OUTPUT : Nat := 0x20

def DXGI_SWAP_EFFECT_DISCARD : Nat := 0

/-- `InitD3D(hwnd, width, height)`; `hrDevice`, `hrBuffer` and `hrRtv` are the `HRESULT`s of
`D3D11CreateDeviceAndSwapChain`, `GetBuffer` and `CreateRenderTargetView`, and `FAILED(hr)`
is `hr < 0`. -/
def InitD3D (hrDevice hrBuffer hrRtv : Int) (hwnd : Nat) (width height : Int) : D3DState :=
  let sd := DXGI_SWAP_CHAIN_DESC.mk 1 (toUInt32 width) (toUInt32 height)
    DXGI_FORMAT_R8G8B8A8_UNORM 60 1 DXGI_USAGE_RENDER_TARGET_OUTPUT hwnd 1 true
    DXGI_SWAP_EFFECT_DISCARD
  if hrDevice < 0 then D3DState.mk false none none
  else if hrBuffer < 0 then D3DState.mk false (some sd) none
  else if hrRtv < 0 then D3DState.mk false (some sd) none
  else D3DState.mk true (some sd)
    (some (D3D11_VIEWPORT.mk 0 0 (floatOfInt width) (floatOfInt height) 0 1))

/-- State of the render loop. -/
structure RenderState where
  running : Bool
  /-- Calls of `ClearRenderTargetView` followed by `Present` so far. -/
  presents : Nat
  /-- Iterations of the outer loop so far. -/
  iterations : Nat
  /-- The swap chain and viewport behind `g_Swapchain` and `g_Context`. -/
  d3d : D3DState
  deriving DecidableEq

/-- The inner loop `while (PeekMessageW(...))` over the messages of one drain. -/
def drainMessages (batch : List MSG) (running : Bool) : Bool :=
  batch.foldl (fun r m => if m.message == WM_QUIT then false else r) running

/-- One iteration of `while (running)`: drain the queue, then clear and present. -/
def renderIteration (s : RenderState) (batch : List MSG) : RenderState :=
  RenderState.mk (drainMessages batch s.running) (s.presents + 1) (s.iterations + 1) s.d3d

/-- The loop `while (running)`; `batches` holds, for each iteration still to come, the
messages its drain returns. -/
def renderLoop : List (List MSG) → RenderState → RenderState
  | [], s => s
  | batch :: rest, s => if s.running then renderLoop rest (renderIteration s batch) else s

def IDCANCEL : Int := 2

/-- How the dialog ended: `IDOK` with the value `CB_GETCURSEL` gave, `IDCANCEL`, or
`WM_CLOSE`. -/
inductive DialogEvent where
  | ok (curSel : Int)
  | cancel
  | close

/-- The value `LauncherDlgProc` passes to `EndDialog`. -/
def LauncherDlgProc : DialogEvent → Int
  | DialogEvent.ok curSel => curSel
  | DialogEvent.cancel => -IDCANCEL
  | DialogEvent.close => -IDCANCEL

/-- The value `DialogBoxParamW` returns: what the dialog procedure passed to `EndDialog`, or
`-1` when the call fails. -/
def DialogBoxParamW : Option DialogEvent → Int
  | some e => LauncherDlgProc e
  | none => -1

/-- Outcomes of the platform calls of one run of the process. -/
structure Platform where
  /-- The decoder behind `MultiByteToWideChar`. -/
  cv : List Nat → List Nat
  /-- Outputs reported to `EnumerateMonitors` when `RunRenderer` calls it. -/
  outputs : List DisplayOutput
  /-- The handle `CreateWindowExW` returns; `0` is the null handle. -/
  hWnd : Nat
  hrDevice : Int
  hrBuffer : Int
  hrRtv : Int
  /-- Messages returned by each drain of the queue. -/
  batches : List (List MSG)
  /-- Outputs reported to `EnumerateMonitors` when `RunDialogGui` calls it. -/
  dialogOutputs : List DisplayOutput
  /-- How the launcher dialog ended; `none` when `DialogBoxParamW` fails. -/
  dialog : Option DialogEvent
  /-- `AttachConsole` succeeded. -/
  attachConsole : Bool

/-- The arguments `x, y, nWidth, nHeight` passed to `CreateWindowExW`. -/
structure WindowArgs where
  x : Int
  y : Int
  nWidth : Int
  nHeight : Int
  deriving DecidableEq

/-- What a call of `RunRenderer` did. -/
structure RendererRun where
  /-- The value returned; `none` while the loop has not yet seen a quit message. -/
  status : Option Int
  /-- The element `mons[monitorIndex]`. -/
  target : Option MonitorInfo
  window : Option WindowArgs
  d3d : Option D3DState
  loop : Option RenderState

/-- The statement `if (monitorIndex < 0 || monitorIndex >= (int) mons.size()) monitorIndex = 0`:
the new value of `monitorIndex`. -/
def clampIndex (monitorIndex : Int) (size : Nat) : Int :=
  if monitorIndex < 0 ∨ monitorIndex ≥ toInt32 size then 0 else monitorIndex

/-- The part of `RunRenderer` after the monitor `m = mons[monitorIndex]` is read: window
creation, `InitD3D`, the render loop and the return. -/
def renderOn (p : Platform) (m : MonitorInfo) : RendererRun :=
  let r := m.info.rcMonitor
  let width := toInt32 (r.right - r.left)
  let height := toInt32 (r.bottom - r.top)
  let wnd := WindowArgs.mk r.left r.top width height
  if p.hWnd = 0 then RendererRun.mk (some (-1)) (some m) (some wnd) none none
  else
    let d3d := InitD3D p.hrDevice p.hrBuffer p.hrRtv p.hWnd width height
    if !d3d.ok then RendererRun.mk (some (-1)) (some m) (some wnd) (some d3d) none
    else
      let fin := renderLoop p.batches (RenderState.mk true 0 0 d3d)
      RendererRun.mk (if fin.running then none else some 0) (some m) (some wnd) (some d3d)
        (some fin)

/-- `RunRenderer(monitorIndex)`.  A read outside the vector would leave every field `none`. -/
def RunRenderer (p : Platform) (monitorIndex : Int) : RendererRun :=
  let mons := EnumerateMonitors p.cv p.outputs
  if mons.isEmpty then RendererRun.mk (some (-1)) none none none none
  else
    match mons[(clampIndex monitorIndex mons.length).toNat]? with
    | none => RendererRun.mk none none none none none
    | some m => renderOn p m

/-! ## The launcher and the entry point -/

def RUN_GUI : Int := -1

def RUN_HELP : Int := -2

def monitorArg : List Char := ['-', '-', 'm', 'o', 'n', 'i', 't', 'o', 'r']

def helpArg : List Char := ['-', '-', 'h', 'e', 'l', 'p']

/-- `RunDialogGui(hInst)`: the value returned. -/
def RunDialogGui (p : Platform) : Option Int :=
  let monitors := EnumerateMonitors p.cv p.dialogOutputs
  if monitors.isEmpty then some (-1)
  else
    let sel := toInt32 (DialogBoxParamW p.dialog)
    if sel = -IDCANCEL then some 0
    else if sel ≥ 0 ∧ sel < toInt32 monitors.length then (RunRenderer p sel).status
    else some (-1)

/-- Whether `s` begins with `needle`. -/
def beginsWith : List Char → List Char → Bool
  | _, [] => true
  | [], _ :: _ => false
  | c :: cs, n :: ns => c == n && beginsWith cs ns

/-- `cmd.find(needle) != std::wstring::npos`. -/
def found : List Char → List Char → Bool
  | [], needle => needle.isEmpty
  | c :: cs, needle => beginsWith (c :: cs) needle || found cs needle

/-- The value of a run of decimal digits, most significant first, after the digits read so
far gave `acc`. -/
def digitsValue : List Char → Nat → Nat
  | [], acc => acc
  | c :: cs, acc => if c.isDigit then digitsValue cs (10 * acc + (c.toNat - 48)) else acc

/-- `_wtoi` on a string that starts at a digit, as `CheckArgs` calls it: the value of the
leading digits, or `INT_MAX` when that value does not fit an `int`. -/
def _wtoi (s : List Char) : Int :=
  if digitsValue s 0 ≤ 2147483647 then (digitsValue s 0 : Nat) else 2147483647

/-- `CheckArgs(cmd)`. -/
def CheckArgs (cmd : List Char) : Int :=
  if found cmd monitorArg then
    match cmd.dropWhile (fun c => !c.isDigit) with
    | [] => 0
    | c :: cs => _wtoi (c :: cs)
  else if found cmd helpArg then RUN_HELP
  else RUN_GUI

/-- `wWinMain`: the exit status of the process. -/
def wWinMain (p : Platform) (cmd : List Char) : Option Int :=
  if CheckArgs cmd = RUN_HELP then
    if !p.attachConsole then some (-1) else some 0
  else if CheckArgs cmd = RUN_GUI then RunDialogGui p
  else (RunRenderer p (CheckArgs cmd)).status

/-! ## Sample platform -/

/-- Two outputs with bounds `{0,0,1920,1080}` and `{1920,0,3440,1440}` and no readable
descriptor block. -/
def sampleOutputs : List DisplayOutput :=
  [DisplayOutput.mk 101 (some (MONITORINFOEXW.mk (RECT.mk 0 0 1920 1080) [49])) (some []),
   DisplayOutput.mk 102 (some (MONITORINFOEXW.mk (RECT.mk 1920 0 3440 1440) [50])) none]

/-- The message `WM_QUIT`. -/
def quitMessage : MSG := MSG.mk WM_QUIT 0 0

/-- A run on the two sample outputs in which every platform call succeeds and the second
drain returns a key-down of `Q` with the control key held, then the quit message. -/
def samplePlatform : Platform :=
  Platform.mk sampleDecoder sampleOutputs 0x50A2C 0 0 0
    [[], [MSG.mk WM_KEYDOWN 81 0x8000, quitMessage]] sampleOutputs
    (some (DialogEvent.ok 1)) true

/-! ## The descriptor scan -/

theorem tagTest_fst (edid : List Nat) (j : Nat) : (tagTest edid j).1 = hasNameTag edid j := by
  unfold tagTest hasNameTag
  generalize edid.getD j 0 = a
  generalize edid.getD (j + 1) 0 = b
  generalize edid.getD (j + 2) 0 = c
  by_cases h0 : a = 0 <;> by_cases h1 : b = 0 <;> by_cases h2 : c = 0 <;> simp [h0, h1, h2]

theorem tagTest_reads (edid : List Nat) (j i : Nat) (h : i ∈ (tagTest edid j).2) :
    j ≤ i ∧ i ≤ j + 3 := by
  unfold tagTest at h
  split_ifs at h <;> simp at h <;> omega

theorem memcpyReads_bounds (j i : Nat) (h : i ∈ memcpyReads j) : j + 5 ≤ i ∧ i ≤ j + 17 := by
  unfold memcpyReads at h
  simp only [List.mem_map, List.mem_range] at h
  obtain ⟨a, ha, rfl⟩ := h
  omega

theorem copyName_length (edid : List Nat) (j : Nat) : (copyName edid j).length = 14 := by
  simp [copyName, memcpyReads]

theorem copyName_take (edid : List Nat) (j : Nat) (h : j + 17 < edid.length) :
    (copyName edid j).take 13 = payload edid j := by
  have hlen : ((memcpyReads j).map (fun i => edid.getD i 0)).length = 13 := by
    simp [memcpyReads]
  unfold copyName
  rw [List.take_append_of_le_length (by omega), List.take_of_length_le (by omega)]
  apply List.ext_getElem
  · simp [payload, memcpyReads]; omega
  · intro n h1 h2
    simp only [memcpyReads, List.map_map, List.getElem_map, List.getElem_range, Function.comp,
      payload, List.getElem_take, List.getElem_drop]
    rw [List.getD_eq_getElem]

theorem copyName_drop (edid : List Nat) (j : Nat) : (copyName edid j).drop 13 = [0] := by
  have hlen : ((memcpyReads j).map (fun i => edid.getD i 0)).length = 13 := by
    simp [memcpyReads]
  unfold copyName
  rw [List.drop_append_of_le_length (by omega), List.drop_of_length_le (by omega)]
  rfl

theorem trimLoop_length (n : Nat) : ∀ name : List Nat,
    (trimLoop n name).1.length = name.length := by
  induction n with
  | zero => intro name; rfl
  | succ k ih =>
    intro name
    unfold trimLoop
    split_ifs
    · simp [ih]
    · rfl

theorem trimLoop_touched (n : Nat) : ∀ (name : List Nat) (i : Nat),
    i ∈ (trimLoop n name).2 → i < n := by
  induction n with
  | zero => intro name i h; simp [trimLoop] at h
  | succ k ih =>
    intro name i h
    unfold trimLoop at h
    split_ifs at h
    · simp only [List.mem_cons] at h
      rcases h with h | h
      · omega
      · have := ih _ _ h; omega
    · simp at h; omega

theorem trimLoop_above (n : Nat) : ∀ (name : List Nat) (i : Nat), n ≤ i →
    (trimLoop n name).1.getD i 0 = name.getD i 0 := by
  induction n with
  | zero => intro name i _; rfl
  | succ k ih =>
    intro name i hi
    unfold trimLoop
    split_ifs
    · simp only
      rw [ih _ _ (by omega)]
      simp only [List.getD_eq_getElem?_getD]
      rw [List.getElem?_set_ne (by omega)]
    · rfl

theorem take_set_self (l : List Nat) (k a : Nat) : (l.set k a).take k = l.take k := by
  rw [List.set_take, List.set_eq_of_length_le (by simp)]

theorem drop_set_self (l : List Nat) (k a : Nat) (h : k < l.length) :
    (l.set k a).drop k = a :: l.drop (k + 1) := by
  rw [List.drop_set, if_neg (Nat.lt_irrefl k), Nat.sub_self, List.drop_eq_getElem_cons h]
  rfl

theorem rtrim_length_le (s : List Nat) : (rtrim s).length ≤ s.length :=
  (List.rdropWhile_prefix isTrimChar s).sublist.length_le

theorem trimLoop_fst (n : Nat) : ∀ name : List Nat, n ≤ name.length →
    (trimLoop n name).1 =
      rtrim (name.take n) ++ List.replicate (n - (rtrim (name.take n)).length) 0 ++
        name.drop n := by
  induction n with
  | zero => intro name _; simp [trimLoop, rtrim]
  | succ k ih =>
    intro name hk
    have hk2 : k < name.length := by omega
    have htake : name.take (k + 1) = name.take k ++ [name.getD k 0] := by
      rw [List.take_succ, List.getD_eq_getElem?_getD, List.getElem?_eq_getElem hk2]
      rfl
    have hle : (rtrim (name.take k)).length ≤ k := by
      have h1 := rtrim_length_le (name.take k)
      have h2 : (name.take k).length ≤ k := by simp
      omega
    unfold trimLoop
    split_ifs with hc
    · have h1 : rtrim (List.take k name ++ [name.getD k 0]) = rtrim (List.take k name) := by
        unfold rtrim; exact List.rdropWhile_concat_pos _ _ _ hc
      simp only
      rw [ih _ (by simp; omega), htake, h1, take_set_self, drop_set_self _ _ _ hk2]
      have h2 : k + 1 - (rtrim (List.take k name)).length
          = (k - (rtrim (List.take k name)).length) + 1 := by omega
      rw [h2, List.replicate_succ']
      simp
    · have h1 : rtrim (List.take k name ++ [name.getD k 0]) = List.take k name ++ [name.getD k 0] := by
        unfold rtrim; exact List.rdropWhile_concat_neg _ _ _ hc
      simp only
      rw [htake, h1, ← htake]
      simp [List.length_take, Nat.min_eq_left hk]

theorem scanLoop_found (edid : List Nat) (k : Nat) : ∀ s : Nat,
    s + 18 * k + 17 < edid.length → hasNameTag edid (s + 18 * k) = true →
    (∀ i, i < k → hasNameTag edid (s + 18 * i) = false) →
    (scanLoop edid s).name = some (trimLoop 13 (copyName edid (s + 18 * k))).1 := by
  induction k with
  | zero =>
    intro s hlen htag _
    rw [scanLoop]
    simp only [Nat.mul_zero, Nat.add_zero] at hlen htag ⊢
    rw [if_pos hlen, tagTest_fst, if_pos htag]
  | succ k ih =>
    intro s hlen htag hfirst
    have h0 : hasNameTag edid s = false := by simpa using hfirst 0 (Nat.succ_pos k)
    rw [scanLoop, if_pos (by omega), tagTest_fst, h0]
    simp only [Bool.false_eq_true, if_false]
    have hs : s + 18 * (k + 1) = s + 18 + 18 * k := by ring
    rw [hs] at hlen htag ⊢
    refine ih (s + 18) hlen htag ?_
    intro i hi
    have := hfirst (i + 1) (by omega)
    have hs2 : s + 18 * (i + 1) = s + 18 + 18 * i := by ring
    rwa [hs2] at this

theorem scanLoop_none (edid : List Nat) : ∀ s : Nat,
    (∀ k, s + 18 * k + 17 < edid.length → hasNameTag edid (s + 18 * k) = false) →
    (scanLoop edid s).name = none := by
  intro s
  induction s using scanLoop.induct edid with
  | case1 x hlen htag =>
    intro h
    have := h 0 (by simpa using hlen)
    rw [tagTest_fst] at htag
    simp only [Nat.mul_zero, Nat.add_zero] at this
    rw [this] at htag
    exact absurd htag (by simp)
  | case2 x hlen htag ih =>
    intro h
    rw [scanLoop, if_pos hlen, if_neg htag]
    apply ih
    intro k hk
    have hs : x + 18 + 18 * k = x + 18 * (k + 1) := by ring
    rw [hs] at hk ⊢
    exact h (k + 1) hk
  | case3 x hlen =>
    intro _
    rw [scanLoop, if_neg hlen]

theorem scanLoop_some (edid : List Nat) : ∀ (s : Nat) (n : List Nat),
    (scanLoop edid s).name = some n →
    ∃ k, s + 18 * k + 17 < edid.length ∧ hasNameTag edid (s + 18 * k) = true ∧
      (∀ i, i < k → hasNameTag edid (s + 18 * i) = false) ∧
      n = (trimLoop 13 (copyName edid (s + 18 * k))).1 := by
  intro s
  induction s using scanLoop.induct edid with
  | case1 x hlen htag =>
    intro n h
    rw [scanLoop, if_pos hlen, if_pos htag] at h
    refine ⟨0, by simpa using hlen, by simpa [tagTest_fst] using htag, by simp, ?_⟩
    simpa using (Option.some.inj h).symm
  | case2 x hlen htag ih =>
    intro n h
    rw [scanLoop, if_pos hlen, if_neg htag] at h
    obtain ⟨k, h1, h2, h3, h4⟩ := ih n h
    have hs : x + 18 + 18 * k = x + 18 * (k + 1) := by ring
    refine ⟨k + 1, by rwa [← hs], by rwa [← hs], ?_, by rwa [← hs]⟩
    intro i hi
    cases i with
    | zero => simpa [tagTest_fst] using htag
    | succ i =>
      have hs2 : x + 18 * (i + 1) = x + 18 + 18 * i := by ring
      rw [hs2]
      exact h3 i (by omega)
  | case3 x hlen =>
    intro n h
    rw [scanLoop, if_neg hlen] at h
    exact absurd h (by simp)

theorem scanLoop_reads (edid : List Nat) : ∀ (s i : Nat),
    i ∈ (scanLoop edid s).reads → i < edid.length := by
  intro s
  induction s using scanLoop.induct edid with
  | case1 x hlen htag =>
    intro i h
    rw [scanLoop, if_pos hlen, if_pos htag] at h
    rcases List.mem_append.mp h with h | h
    · have := tagTest_reads _ _ _ h; omega
    · have := memcpyReads_bounds _ _ h; omega
  | case2 x hlen htag ih =>
    intro i h
    rw [scanLoop, if_pos hlen, if_neg htag] at h
    rcases List.mem_append.mp h with h | h
    · have := tagTest_reads _ _ _ h; omega
    · exact ih i h
  | case3 x hlen =>
    intro i h
    rw [scanLoop, if_neg hlen] at h
    exact absurd h (by simp)

theorem scanLoop_touched (edid : List Nat) : ∀ (s i : Nat),
    i ∈ (scanLoop edid s).touched → i < 13 := by
  intro s
  induction s using scanLoop.induct edid with
  | case1 x hlen htag =>
    intro i h
    rw [scanLoop, if_pos hlen, if_pos htag] at h
    exact trimLoop_touched _ _ _ h
  | case2 x hlen htag ih =>
    intro i h
    rw [scanLoop, if_pos hlen, if_neg htag] at h
    exact ih i h
  | case3 x hlen =>
    intro i h
    rw [scanLoop, if_neg hlen] at h
    exact absurd h (by simp)

theorem scanLoop_records (edid : List Nat) : ∀ s : Nat,
    18 * (scanLoop edid s).records ≤ edid.length - s := by
  intro s
  induction s using scanLoop.induct edid with
  | case1 x hlen htag =>
    rw [scanLoop, if_pos hlen, if_pos htag]
    simp only
    omega
  | case2 x hlen htag ih =>
    rw [scanLoop, if_pos hlen, if_neg htag]
    simp only
    omega
  | case3 x hlen =>
    rw [scanLoop, if_neg hlen]
    simp

theorem scannedOffset_index (L j : Nat) (h : scannedOffset L j) :
    j = 54 + 18 * ((j - 54) / 18) := by
  obtain ⟨h1, h2, _⟩ := h
  omega

theorem scannedOffset_of_index (L k : Nat) (h : 54 + 18 * k + 17 < L) :
    scannedOffset L (54 + 18 * k) := by
  refine ⟨by omega, ?_, h⟩
  simp

theorem scanBlock_found (cv : List Nat → List Nat) (edid : List Nat) (j : Nat)
    (hj : scannedOffset edid.length j) (htag : hasNameTag edid j = true)
    (hfirst : ∀ i, scannedOffset edid.length i → i < j → hasNameTag edid i = false) :
    scanBlock cv edid = some (MultiByteToWideChar cv (trimLoop 13 (copyName edid j)).1) := by
  have hk := scannedOffset_index _ _ hj
  obtain ⟨_, _, hlen⟩ := hj
  unfold scanBlock
  rw [hk] at hlen htag
  rw [scanLoop_found edid ((j - 54) / 18) 54 hlen htag, ← hk]
  · rfl
  · intro i hi
    exact hfirst _ (scannedOffset_of_index _ i (by omega)) (by omega)

theorem scanBlock_none (cv : List Nat → List Nat) (edid : List Nat)
    (h : ∀ j, scannedOffset edid.length j → hasNameTag edid j = false) :
    scanBlock cv edid = none := by
  unfold scanBlock
  rw [scanLoop_none edid 54 (fun k hk => h _ (scannedOffset_of_index _ k hk))]
  rfl

theorem trimmedName_eq (edid : List Nat) (j : Nat) (h : j + 17 < edid.length) :
    (trimLoop 13 (copyName edid j)).1 =
      rtrim (payload edid j) ++
        List.replicate (13 - (rtrim (payload edid j)).length) 0 ++ [0] := by
  rw [trimLoop_fst 13 _ (by rw [copyName_length]; omega), copyName_take edid j h,
    copyName_drop]

theorem cText_append_zero (X Y : List Nat) (hX : ∀ b ∈ X, b ≠ 0) :
    cText (X ++ 0 :: Y) = X := by
  unfold cText
  induction X with
  | nil => simp [List.takeWhile]
  | cons x xs ih =>
    have hx : x ≠ 0 := hX x (by simp)
    simp only [List.cons_append, List.takeWhile_cons]
    rw [if_pos (by simpa using hx), ih (fun b hb => hX b (by simp [hb]))]

theorem cText_trimmed (X : List Nat) (n : Nat) (hX : ∀ b ∈ X, b ≠ 0) :
    cText (X ++ List.replicate n 0 ++ [0]) = X := by
  have h : X ++ List.replicate n 0 ++ [0] = X ++ 0 :: List.replicate n 0 := by
    rw [List.append_assoc, ← List.replicate_succ', List.replicate_succ]
  rw [h, cText_append_zero X _ hX]

theorem rtrim_subset (s : List Nat) (b : Nat) (h : b ∈ rtrim s) : b ∈ s :=
  (List.rdropWhile_prefix isTrimChar s).subset h

theorem MultiByteToWideChar_ascii (cv : List Nat → List Nat) (name : List Nat)
    (h : ∀ b ∈ cText name, b < 128) : MultiByteToWideChar cv name = cText name ++ [0] := by
  unfold MultiByteToWideChar
  rw [if_pos]
  simpa using h

/-- For a block of length at most 256 whose first scanned record starting `00 00 00 FC` lies
at offset `j` and whose 13 payload bytes `j + 5 .. j + 17` are non-zero 7-bit ASCII, the text
of the returned name (the characters before its terminator) is exactly the payload with its
maximal trailing run of space, LF and CR removed; the returned string is that text followed
by the terminator. -/
theorem name_extraction_exact (cv : List Nat → List Nat) (edid : List Nat) (j : Nat)
    (_hL : edid.length ≤ 256)
    (hj : scannedOffset edid.length j)
    (htag : hasNameTag edid j = true)
    (hfirst : ∀ i, scannedOffset edid.length i → i < j → hasNameTag edid i = false)
    (hascii : ∀ b ∈ payload edid j, b ≠ 0 ∧ b < 128) :
    (scanBlock cv edid).map cText = some (rtrim (payload edid j)) ∧
      cText (GetMonitorFriendlyName cv [] (some [readableDevice edid]))
        = rtrim (payload edid j) ∧
      scanBlock cv edid = some (rtrim (payload edid j) ++ [0]) ∧
      GetMonitorFriendlyName cv [] (some [readableDevice edid]) = rtrim (payload edid j) ++ [0] := by
  have hne : ∀ b ∈ rtrim (payload edid j), b ≠ 0 :=
    fun b hb => (hascii b (rtrim_subset _ b hb)).1
  have hlt : ∀ b ∈ rtrim (payload edid j), b < 128 :=
    fun b hb => (hascii b (rtrim_subset _ b hb)).2
  have hname := trimmedName_eq edid j hj.2.2
  have htext : cText (trimLoop 13 (copyName edid j)).1 = rtrim (payload edid j) := by
    rw [hname, cText_trimmed _ _ hne]
  have hscan : scanBlock cv edid = some (rtrim (payload edid j) ++ [0]) := by
    rw [scanBlock_found cv edid j hj htag hfirst,
      MultiByteToWideChar_ascii cv _ (by rw [htext]; exact hlt), htext]
  have hcut : cText (rtrim (payload edid j) ++ [0]) = rtrim (payload edid j) := by
    rw [← List.append_nil (rtrim (payload edid j) ++ [0]), List.append_assoc,
      List.singleton_append, cText_append_zero _ _ hne]
  have hget : GetMonitorFriendlyName cv [] (some [readableDevice edid])
      = rtrim (payload edid j) ++ [0] := by
    simp [GetMonitorFriendlyName, deviceStep, readableDevice, hscan]
  refine ⟨?_, ?_, hscan, hget⟩
  · rw [hscan]
    simp only [Option.map_some']
    rw [hcut]
  · rw [hget, hcut]

theorem name_extraction_exact_witness :
    cText (GetMonitorFriendlyName sampleDecoder [] (some [readableDevice sampleEdid]))
      = [68, 69, 76, 76, 32, 85, 50, 52, 49, 53] :=
  (name_extraction_exact sampleDecoder sampleEdid 72 (by decide) (by decide) (by decide)
    (by
      intro i hi hlt
      obtain ⟨h1, h2, _⟩ := hi
      have h54 : i = 54 := by omega
      subst h54
      decide)
    (by decide)).2.1

/-! ## The loop over candidate devices -/

theorem deviceStep_eq (cv : List Nat → List Nat) (r : WString) (d : MonitorDevice) :
    deviceStep cv r d = (candidateName cv d).getD r := by
  unfold deviceStep candidateName
  cases hk : d.hKey
  · simp
  · cases hq : (d.status == ERROR_SUCCESS && d.type == REG_BINARY)
    · have hq2 : ¬ (d.status = ERROR_SUCCESS ∧ d.type = REG_BINARY) := by
        intro hc
        simp [hc.1, hc.2] at hq
      simp [hq2]
    · have hq2 : d.status = ERROR_SUCCESS ∧ d.type = REG_BINARY := by simpa using hq
      cases hs : scanBlock cv d.edid <;> simp [hq2]

theorem foldl_deviceStep_none (cv : List Nat → List Nat) (devs : List MonitorDevice)
    (h : ∀ d ∈ devs, candidateName cv d = none) (r : WString) :
    devs.foldl (deviceStep cv) r = r := by
  induction devs generalizing r with
  | nil => rfl
  | cons d ds ih =>
    rw [List.foldl_cons, deviceStep_eq, h d (by simp)]
    exact ih (fun e he => h e (by simp [he])) r

theorem foldl_deviceStep_last (cv : List Nat → List Nat) (pre post : List MonitorDevice)
    (d : MonitorDevice) (n r : WString) (hd : candidateName cv d = some n)
    (hpost : ∀ e ∈ post, candidateName cv e = none) :
    (pre ++ d :: post).foldl (deviceStep cv) r = n := by
  rw [List.foldl_append, List.foldl_cons, deviceStep_eq, hd]
  exact foldl_deviceStep_none cv post hpost n

theorem candidateName_none_of_failure (cv : List Nat → List Nat) (d : MonitorDevice)
    (h : d.hKey = false ∨ d.status ≠ ERROR_SUCCESS ∨ d.type ≠ REG_BINARY ∨
      d.edid.length < 72 ∨ (∀ j, scannedOffset d.edid.length j → hasNameTag d.edid j = false)) :
    candidateName cv d = none := by
  unfold candidateName
  rcases h with h | h | h | h | h
  · simp [h]
  · simp [h]
  · simp [h]
  · rw [scanBlock_none cv d.edid]
    · simp
    · intro j hj
      obtain ⟨h1, _, h3⟩ := hj
      omega
  · rw [scanBlock_none cv d.edid h]
    simp

theorem scanBlock_at_54 (cv : List Nat → List Nat) (edid : List Nat)
    (hlen : 71 < edid.length) (htag : hasNameTag edid 54 = true) :
    scanBlock cv edid = some (MultiByteToWideChar cv (trimLoop 13 (copyName edid 54)).1) := by
  apply scanBlock_found cv edid 54 ⟨le_refl _, by simp, hlen⟩ htag
  intro i hi hlt
  obtain ⟨h1, _, _⟩ := hi
  omega

/-- C2. `GetMonitorFriendlyName` returns `"Unknown Monitor"` whenever the device set cannot be
obtained, is empty, or holds only candidates that cannot be opened, fail the read, have a
non-binary type, have a block shorter than 72 bytes, or have no record starting
`00 00 00 FC` at a scanned offset. -/
theorem sentinel_on_every_failure (cv : List Nat → List Nat) (deviceName : WString)
    (hDevInfo : Option (List MonitorDevice))
    (h : ∀ devs, hDevInfo = some devs → ∀ d ∈ devs,
      d.hKey = false ∨ d.status ≠ ERROR_SUCCESS ∨ d.type ≠ REG_BINARY ∨
      d.edid.length < 72 ∨
      (∀ j, scannedOffset d.edid.length j → hasNameTag d.edid j = false)) :
    GetMonitorFriendlyName cv deviceName hDevInfo = unknownMonitor := by
  cases hDevInfo with
  | none => rfl
  | some devs =>
    exact foldl_deviceStep_none cv devs
      (fun d hd => candidateName_none_of_failure cv d (h devs rfl d hd)) unknownMonitor

theorem sentinel_on_every_failure_witness :
    GetMonitorFriendlyName sampleDecoder [68, 73, 83, 80, 76, 65, 89, 49]
      (some [MonitorDevice.mk false 0 0 [], MonitorDevice.mk true 2 0 [],
        MonitorDevice.mk true ERROR_SUCCESS 1 sampleEdid,
        readableDevice [], readableDevice (sampleEdid.take 71),
        readableDevice namelessEdid]) = unknownMonitor ∧
    GetMonitorFriendlyName sampleDecoder [] none = unknownMonitor ∧
    GetMonitorFriendlyName sampleDecoder [] (some []) = unknownMonitor :=
  ⟨sentinel_on_every_failure sampleDecoder _ _ (by
      intro devs hdevs d hd
      cases hdevs
      simp only [List.mem_cons, List.mem_singleton, List.not_mem_nil, or_false] at hd
      rcases hd with rfl | rfl | rfl | rfl | rfl | rfl
      · exact Or.inl rfl
      · exact Or.inr (Or.inl (by decide))
      · exact Or.inr (Or.inr (Or.inl (by decide)))
      · exact Or.inr (Or.inr (Or.inr (Or.inl (by decide))))
      · exact Or.inr (Or.inr (Or.inr (Or.inl (by decide))))
      · refine Or.inr (Or.inr (Or.inr (Or.inr ?_)))
        intro j hj
        obtain ⟨h1, h2, h3⟩ := hj
        have h3 : j + 17 < 90 := h3
        have hj : j = 54 ∨ j = 72 := by omega
        rcases hj with rfl | rfl <;> decide),
    sentinel_on_every_failure sampleDecoder _ _ (by intro devs hdevs; cases hdevs),
    sentinel_on_every_failure sampleDecoder _ _ (by
      intro devs hdevs d hd
      cases hdevs
      cases hd)⟩

theorem candidateName_acme (cv : List Nat → List Nat) :
    candidateName cv (readableDevice acmeEdid) = some [65, 67, 77, 69, 32, 50, 55, 0] := by
  unfold candidateName readableDevice
  simp only [beq_self_eq_true, Bool.and_self, if_true]
  rw [scanBlock_at_54 cv acmeEdid (by decide) (by decide)]
  rfl

theorem candidateName_sample (cv : List Nat → List Nat) :
    candidateName cv (readableDevice sampleEdid) =
      some [68, 69, 76, 76, 32, 85, 50, 52, 49, 53, 0] := by
  unfold candidateName readableDevice
  simp only [beq_self_eq_true, Bool.and_self, if_true]
  rw [scanBlock_found cv sampleEdid 72 (by decide) (by decide)]
  · rfl
  · intro i hi hlt
    obtain ⟨h1, h2, _⟩ := hi
    have h54 : i = 54 := by omega
    subst h54
    decide

theorem candidateName_zeroPadded (cv : List Nat → List Nat) :
    candidateName cv (readableDevice zeroPaddedEdid) = some [65, 66, 67, 10, 0] := by
  unfold candidateName readableDevice
  simp only [beq_self_eq_true, Bool.and_self, if_true]
  rw [scanBlock_at_54 cv zeroPaddedEdid (by decide) (by decide)]
  rfl

/-- C1 at a block whose name record holds `DELL U2415`, a line feed and two spaces: the
trimmed payload is `DELL U2415`, and the returned string is those ten characters followed by
the terminator that the conversion counts in the length, so it is not the trimmed payload;
only its text is. -/
theorem returned_name_keeps_terminator :
    rtrim (payload sampleEdid 72) = [68, 69, 76, 76, 32, 85, 50, 52, 49, 53] ∧
      GetMonitorFriendlyName sampleDecoder [] (some [readableDevice sampleEdid])
        = [68, 69, 76, 76, 32, 85, 50, 52, 49, 53, 0] ∧
      GetMonitorFriendlyName sampleDecoder [] (some [readableDevice sampleEdid])
        ≠ rtrim (payload sampleEdid 72) ∧
      cText (GetMonitorFriendlyName sampleDecoder [] (some [readableDevice sampleEdid]))
        = rtrim (payload sampleEdid 72) := by
  have h1 : rtrim (payload sampleEdid 72) = [68, 69, 76, 76, 32, 85, 50, 52, 49, 53] := by
    decide
  have h2 : GetMonitorFriendlyName sampleDecoder [] (some [readableDevice sampleEdid])
      = [68, 69, 76, 76, 32, 85, 50, 52, 49, 53, 0] := by
    simp only [GetMonitorFriendlyName, List.foldl_cons, List.foldl_nil, deviceStep_eq,
      candidateName_sample, Option.getD_some]
  refine ⟨h1, h2, ?_, ?_⟩
  · rw [h1, h2]
    decide
  · rw [h1, h2]
    decide

/-- C7, as stated, fails: with two candidates that both hold a name record, the first named
`ACME 27` and the second `DELL U2415`, the result is the second name, not the first. -/
theorem first_candidate_does_not_win :
    firstCandidateName sampleDecoder [readableDevice acmeEdid, readableDevice sampleEdid]
        = some [65, 67, 77, 69, 32, 50, 55, 0] ∧
      GetMonitorFriendlyName sampleDecoder []
        (some [readableDevice acmeEdid, readableDevice sampleEdid])
        = [68, 69, 76, 76, 32, 85, 50, 52, 49, 53, 0] ∧
      GetMonitorFriendlyName sampleDecoder []
        (some [readableDevice acmeEdid, readableDevice sampleEdid])
        ≠ [65, 67, 77, 69, 32, 50, 55, 0] := by
  have h2 : GetMonitorFriendlyName sampleDecoder []
      (some [readableDevice acmeEdid, readableDevice sampleEdid])
      = [68, 69, 76, 76, 32, 85, 50, 52, 49, 53, 0] := by
    simp only [GetMonitorFriendlyName, List.foldl_cons, List.foldl_nil, deviceStep_eq,
      candidateName_acme, candidateName_sample, Option.getD_some]
  refine ⟨?_, h2, ?_⟩
  · simp only [firstCandidateName, List.findSome?_cons, candidateName_acme]
  · rw [h2]
    decide

/-- C7, amended. When at least one candidate holds a readable block with a name record, the
result is the name extracted from the last such candidate in enumeration order, whatever the
earlier candidates hold, and it is the same for every device name argument. -/
theorem last_candidate_wins (cv : List Nat → List Nat) (deviceName : WString)
    (pre post : List MonitorDevice) (d : MonitorDevice) (n : WString)
    (hd : candidateName cv d = some n)
    (hpost : ∀ e ∈ post, candidateName cv e = none) :
    GetMonitorFriendlyName cv deviceName (some (pre ++ d :: post)) = n ∧
      ∀ other : WString,
        GetMonitorFriendlyName cv other (some (pre ++ d :: post)) =
          GetMonitorFriendlyName cv deviceName (some (pre ++ d :: post)) :=
  ⟨foldl_deviceStep_last cv pre post d n unknownMonitor hd hpost, fun _ => rfl⟩

theorem last_candidate_wins_witness :
    GetMonitorFriendlyName sampleDecoder [68, 73, 83, 80, 76, 65, 89, 49]
      (some ([readableDevice acmeEdid] ++ readableDevice sampleEdid ::
        [readableDevice namelessEdid, MonitorDevice.mk false 0 0 []]))
      = [68, 69, 76, 76, 32, 85, 50, 52, 49, 53, 0] :=
  (last_candidate_wins sampleDecoder _ [readableDevice acmeEdid]
    [readableDevice namelessEdid, MonitorDevice.mk false 0 0 []] (readableDevice sampleEdid) _
    (candidateName_sample sampleDecoder) (by
      intro e he
      simp only [List.mem_cons, List.mem_singleton, List.not_mem_nil, or_false] at he
      rcases he with rfl | rfl
      · apply candidateName_none_of_failure
        refine Or.inr (Or.inr (Or.inr (Or.inr ?_)))
        intro j hj
        obtain ⟨h1, h2, h3⟩ := hj
        have h3 : j + 17 < 90 := h3
        have hj : j = 54 ∨ j = 72 := by omega
        rcases hj with rfl | rfl <;> decide
      · exact candidateName_none_of_failure _ _ (Or.inl rfl))).1

/-- C9 at the input the claim names: a name record holding `ABC`, a line feed and nine zero
bytes.  The trim loop meets a zero at index 12 and stops, so the returned text is `ABC`
followed by the line feed. -/
theorem zero_padded_name_keeps_line_feed (cv : List Nat → List Nat) :
    GetMonitorFriendlyName cv [] (some [readableDevice zeroPaddedEdid]) = [65, 66, 67, 10, 0] ∧
      cText [65, 66, 67, 10, 0] = [65, 66, 67, 10] ∧
      (trimLoop 13 (copyName zeroPaddedEdid 54)).2 = [12] := by
  refine ⟨?_, by decide, by decide⟩
  simp only [GetMonitorFriendlyName, List.foldl_cons, List.foldl_nil, deviceStep_eq,
    candidateName_zeroPadded, Option.getD_some]

/-! ## Memory safety of the scan -/

theorem scanLoop_reads_record (edid : List Nat) : ∀ (s i : Nat),
    i ∈ (scanLoop edid s).reads →
    ∃ k, s + 18 * k + 17 < edid.length ∧
      ((s + 18 * k ≤ i ∧ i ≤ s + 18 * k + 3) ∨ (s + 18 * k + 5 ≤ i ∧ i ≤ s + 18 * k + 17)) := by
  intro s
  induction s using scanLoop.induct edid with
  | case1 x hlen htag =>
    intro i h
    rw [scanLoop, if_pos hlen, if_pos htag] at h
    refine ⟨0, by simpa using hlen, ?_⟩
    rcases List.mem_append.mp h with h | h
    · have := tagTest_reads _ _ _ h; omega
    · have := memcpyReads_bounds _ _ h; omega
  | case2 x hlen htag ih =>
    intro i h
    rw [scanLoop, if_pos hlen, if_neg htag] at h
    rcases List.mem_append.mp h with h | h
    · have := tagTest_reads _ _ _ h
      exact ⟨0, by simpa using hlen, by omega⟩
    · obtain ⟨k, h1, h2⟩ := ih i h
      exact ⟨k + 1, by omega, by omega⟩
  | case3 x hlen =>
    intro i h
    rw [scanLoop, if_neg hlen] at h
    exact absurd h (by simp)

theorem copyName_last (edid : List Nat) (j : Nat) : (copyName edid j).getD 13 0 = 0 := by
  have h := copyName_drop edid j
  have hlen := copyName_length edid j
  rw [List.drop_eq_getElem_cons (by omega)] at h
  rw [List.getD_eq_getElem _ _ (by omega)]
  exact (List.cons.inj h).1

theorem scanLoop_name_buffer (edid : List Nat) (s : Nat) (n : List Nat)
    (h : (scanLoop edid s).name = some n) : n.length = 14 ∧ n.getD 13 0 = 0 := by
  obtain ⟨k, _, _, _, hn⟩ := scanLoop_some edid s n h
  subst hn
  exact ⟨by rw [trimLoop_length, copyName_length],
    by rw [trimLoop_above 13 _ 13 (le_refl _), copyName_last]⟩

/-- C10. For every block of at most 256 bytes, every index of `edid` the scan reads lies in
bytes `j .. j + 3` or `j + 5 .. j + 17` of a record at a scanned offset `j` and is below the
block length, hence inside the 256-byte buffer; the trim loop touches only indices `0 .. 12`
of the 14-byte buffer `name`, whose last byte stays zero; and at most 11 records, hence at
most 12, are examined. -/
theorem scan_stays_in_bounds (edid : List Nat) (hL : edid.length ≤ 256) :
    (∀ i ∈ (scanLoop edid 54).reads, i < edid.length ∧ i < 256 ∧
        ∃ j, scannedOffset edid.length j ∧ ((j ≤ i ∧ i ≤ j + 3) ∨ (j + 5 ≤ i ∧ i ≤ j + 17))) ∧
      (∀ k ∈ (scanLoop edid 54).touched, k ≤ 12) ∧
      (∀ n, (scanLoop edid 54).name = some n → n.length = 14 ∧ n.getD 13 0 = 0) ∧
      (scanLoop edid 54).records ≤ 11 ∧ (scanLoop edid 54).records ≤ 12 := by
  have hrec := scanLoop_records edid 54
  refine ⟨?_, ?_, fun n hn => scanLoop_name_buffer edid 54 n hn, by omega, by omega⟩
  · intro i hi
    have h1 := scanLoop_reads edid 54 i hi
    obtain ⟨k, hk, hr⟩ := scanLoop_reads_record edid 54 i hi
    exact ⟨h1, by omega, 54 + 18 * k, scannedOffset_of_index _ k hk, hr⟩
  · intro k hk
    have := scanLoop_touched edid 54 k hk
    omega

theorem scan_stays_in_bounds_witness :
    (∀ i ∈ (scanLoop sampleEdid 54).reads, i < sampleEdid.length ∧ i < 256 ∧
        ∃ j, scannedOffset sampleEdid.length j ∧
          ((j ≤ i ∧ i ≤ j + 3) ∨ (j + 5 ≤ i ∧ i ≤ j + 17))) ∧
      (∀ k ∈ (scanLoop sampleEdid 54).touched, k ≤ 12) ∧
      (∀ n, (scanLoop sampleEdid 54).name = some n → n.length = 14 ∧ n.getD 13 0 = 0) ∧
      (scanLoop sampleEdid 54).records ≤ 11 ∧ (scanLoop sampleEdid 54).records ≤ 12 :=
  scan_stays_in_bounds sampleEdid (by decide)

/-! ## EnumerateMonitors -/

theorem foldl_monitorEnumProc (cv : List Nat → List Nat) (outs : List DisplayOutput) :
    ∀ vec : List MonitorInfo,
      outs.foldl (monitorEnumProc cv) vec = vec ++ outs.filterMap (describeOutput cv) := by
  induction outs with
  | nil => intro vec; simp
  | cons o os ih =>
    intro vec
    rw [List.foldl_cons, ih]
    unfold monitorEnumProc describeOutput
    cases h : o.monitorInfo with
    | none => simp [List.filterMap_cons, describeOutput, h]
    | some info => simp [List.filterMap_cons, describeOutput, h]

theorem EnumerateMonitors_eq (cv : List Nat → List Nat) (outs : List DisplayOutput) :
    EnumerateMonitors cv outs = outs.filterMap (describeOutput cv) := by
  unfold EnumerateMonitors
  rw [foldl_monitorEnumProc]
  rfl

theorem map_hMon_filterMap (cv : List Nat → List Nat) (outs : List DisplayOutput) :
    (outs.filterMap (describeOutput cv)).map MonitorInfo.hMon =
      (outs.filter (fun o => o.monitorInfo.isSome)).map DisplayOutput.hMon := by
  induction outs with
  | nil => rfl
  | cons o os ih =>
    cases h : o.monitorInfo with
    | none => simp [List.filterMap_cons, describeOutput, h, List.filter_cons, ih]
    | some info => simp [List.filterMap_cons, describeOutput, h, List.filter_cons, ih]

theorem comboItems_ids (mons : List MonitorInfo) :
    (comboItems mons).map Prod.fst = List.range mons.length := by
  unfold comboItems
  rw [List.map_map]
  have h : (Prod.fst ∘ fun im : Nat × MonitorInfo => (im.1, monitorOption im.1 im.2))
      = Prod.fst := rfl
  rw [h, List.enum_map_fst]

/-- C4. `EnumerateMonitors` returns exactly the descriptors of the reported outputs whose
monitor-info query succeeded, in report order, nothing reordered, duplicated or added; the
ids the launcher shows are the positions `0 .. n - 1` in that order; and when every query
succeeds there is one descriptor per reported output. -/
theorem enumerate_report_order (cv : List Nat → List Nat) (outs : List DisplayOutput) :
    EnumerateMonitors cv outs = outs.filterMap (describeOutput cv) ∧
      (EnumerateMonitors cv outs).map MonitorInfo.hMon =
        (outs.filter (fun o => o.monitorInfo.isSome)).map DisplayOutput.hMon ∧
      List.Sublist ((EnumerateMonitors cv outs).map MonitorInfo.hMon)
        (outs.map DisplayOutput.hMon) ∧
      (comboItems (EnumerateMonitors cv outs)).map Prod.fst =
        List.range (EnumerateMonitors cv outs).length ∧
      ((∀ o ∈ outs, o.monitorInfo.isSome = true) →
        (EnumerateMonitors cv outs).length = outs.length ∧
        (EnumerateMonitors cv outs).map MonitorInfo.hMon = outs.map DisplayOutput.hMon) := by
  have h1 := EnumerateMonitors_eq cv outs
  have h2 : (EnumerateMonitors cv outs).map MonitorInfo.hMon =
      (outs.filter (fun o => o.monitorInfo.isSome)).map DisplayOutput.hMon := by
    rw [h1, map_hMon_filterMap]
  refine ⟨h1, h2, ?_, comboItems_ids _, ?_⟩
  · rw [h2]
    exact (List.filter_sublist outs).map _
  · intro hall
    have hf : outs.filter (fun o => o.monitorInfo.isSome) = outs :=
      List.filter_eq_self.mpr hall
    have h3 : (EnumerateMonitors cv outs).map MonitorInfo.hMon = outs.map DisplayOutput.hMon := by
      rw [h2, hf]
    refine ⟨?_, h3⟩
    have := congrArg List.length h3
    simpa using this

/-! ## RunRenderer -/

theorem toInt32_of_range (z : Int) (h1 : -2147483648 ≤ z) (h2 : z < 2147483648) :
    toInt32 z = z := by
  unfold toInt32
  omega

theorem toInt32_le (z : Int) (h : 0 ≤ z) : toInt32 z ≤ z := by
  unfold toInt32
  omega

theorem clampIndex_bounds (i : Int) (n : Nat) (hn : 0 < n) :
    0 ≤ clampIndex i n ∧ (clampIndex i n).toNat < n := by
  unfold clampIndex
  have hle := toInt32_le (n : Int) (by omega)
  split_ifs with h
  · exact ⟨le_refl _, by simpa using hn⟩
  · push_neg at h
    omega

theorem clampIndex_eq (i : Int) (n : Nat) (hn : n < 2147483648) :
    clampIndex i n = if 0 ≤ i ∧ i < n then i else 0 := by
  unfold clampIndex
  rw [toInt32_of_range (n : Int) (by omega) (by omega)]
  split_ifs with h1 h2 h2
  · omega
  · rfl
  · rfl
  · omega

theorem renderOn_target (p : Platform) (m : MonitorInfo) : (renderOn p m).target = some m := by
  unfold renderOn
  dsimp only
  split_ifs <;> rfl

theorem renderOn_window (p : Platform) (m : MonitorInfo) :
    (renderOn p m).window =
      some (WindowArgs.mk m.info.rcMonitor.left m.info.rcMonitor.top
        (toInt32 (m.info.rcMonitor.right - m.info.rcMonitor.left))
        (toInt32 (m.info.rcMonitor.bottom - m.info.rcMonitor.top))) := by
  unfold renderOn
  dsimp only
  split_ifs <;> rfl

theorem RunRenderer_target (p : Platform) (i : Int)
    (hne : EnumerateMonitors p.cv p.outputs ≠ []) :
    (RunRenderer p i).target =
      (EnumerateMonitors p.cv p.outputs)[(clampIndex i
        (EnumerateMonitors p.cv p.outputs).length).toNat]? := by
  have hemp : (EnumerateMonitors p.cv p.outputs).isEmpty = false := by
    cases h : EnumerateMonitors p.cv p.outputs with
    | nil => exact absurd h hne
    | cons a as => rfl
  unfold RunRenderer
  simp only [hemp, Bool.false_eq_true, if_false]
  split
  · next h => rw [h]
  · next m h =>
    rw [h, renderOn_target]

/-- C3. For a non-empty enumeration result of `n` monitors (`n` below `2^31`, so that the cast
of the size to `int` keeps its value) and every requested index `i`, `RunRenderer` targets
element `i` when `0 ≤ i < n` and element `0` otherwise, so an index that is negative or at
least `n` targets the same monitor as index `0`; the index used to read the vector is within
bounds. -/
theorem index_clamped_to_zero (p : Platform) (i : Int)
    (hne : EnumerateMonitors p.cv p.outputs ≠ [])
    (hn : (EnumerateMonitors p.cv p.outputs).length < 2147483648) :
    ((0 ≤ i ∧ i < (EnumerateMonitors p.cv p.outputs).length) →
        (RunRenderer p i).target = (EnumerateMonitors p.cv p.outputs)[i.toNat]?) ∧
      (¬ (0 ≤ i ∧ i < (EnumerateMonitors p.cv p.outputs).length) →
        (RunRenderer p i).target = (EnumerateMonitors p.cv p.outputs)[0]? ∧
        (RunRenderer p i).target = (RunRenderer p 0).target) ∧
      (0 ≤ clampIndex i (EnumerateMonitors p.cv p.outputs).length ∧
        (clampIndex i (EnumerateMonitors p.cv p.outputs).length).toNat
          < (EnumerateMonitors p.cv p.outputs).length) ∧
      (RunRenderer p i).target.isSome = true := by
  have hpos : 0 < (EnumerateMonitors p.cv p.outputs).length := List.length_pos.mpr hne
  have hb := clampIndex_bounds i _ hpos
  have ht := RunRenderer_target p i hne
  have ht0 := RunRenderer_target p 0 hne
  have hc := clampIndex_eq i _ hn
  have hc0 : clampIndex 0 (EnumerateMonitors p.cv p.outputs).length = 0 := by
    rw [clampIndex_eq 0 _ hn]; simp
  refine ⟨?_, ?_, hb, ?_⟩
  · intro h
    rw [ht, hc, if_pos h]
  · intro h
    rw [ht, ht0, hc, if_neg h, hc0]
    exact ⟨rfl, rfl⟩
  · rw [ht, List.getElem?_eq_getElem hb.2]
    rfl

theorem index_clamped_to_zero_witness :
    (RunRenderer samplePlatform 5).target = (RunRenderer samplePlatform 0).target ∧
      (RunRenderer samplePlatform (-1)).target = (RunRenderer samplePlatform 0).target ∧
      (RunRenderer samplePlatform 1).target =
        (EnumerateMonitors sampleDecoder sampleOutputs)[1]? :=
  ⟨((index_clamped_to_zero samplePlatform 5 (by decide) (by decide)).2.1 (by decide)).2,
    ((index_clamped_to_zero samplePlatform (-1) (by decide) (by decide)).2.1 (by decide)).2,
    (index_clamped_to_zero samplePlatform 1 (by decide) (by decide)).1 (by decide)⟩

theorem RunRenderer_eq_renderOn (p : Platform) (i : Int) (m : MonitorInfo)
    (hm : (RunRenderer p i).target = some m) : RunRenderer p i = renderOn p m := by
  unfold RunRenderer at hm ⊢
  dsimp only at hm ⊢
  split_ifs at hm ⊢ with hemp
  · split at hm
    · exact absurd hm (by simp)
    · next m1 h1 =>
      rw [renderOn_target] at hm
      rw [Option.some.inj hm]

theorem RunRenderer_nonempty (p : Platform) (i : Int)
    (hne : EnumerateMonitors p.cv p.outputs ≠ []) :
    ∃ m, m ∈ EnumerateMonitors p.cv p.outputs ∧ RunRenderer p i = renderOn p m := by
  have hpos : 0 < (EnumerateMonitors p.cv p.outputs).length := List.length_pos.mpr hne
  have hb := (clampIndex_bounds i _ hpos).2
  have ht := RunRenderer_target p i hne
  rw [List.getElem?_eq_getElem hb] at ht
  exact ⟨_, List.getElem_mem _, RunRenderer_eq_renderOn p i _ ht⟩

theorem RunRenderer_empty (p : Platform) (i : Int)
    (he : EnumerateMonitors p.cv p.outputs = []) :
    RunRenderer p i = RendererRun.mk (some (-1)) none none none none := by
  unfold RunRenderer
  simp [he]

theorem floatOfInt_exact (n : Int) (h0 : 0 ≤ n) (h : n ≤ 16777216) : floatOfInt n = n := by
  unfold floatOfInt roundToFloat
  have h1 : n.natAbs ≤ 16777216 := by omega
  rw [if_neg (by omega), if_pos h1]
  omega

theorem InitD3D_ok (hrDevice hrBuffer hrRtv : Int) (hwnd : Nat) (width height : Int)
    (h1 : 0 ≤ hrDevice) (h2 : 0 ≤ hrBuffer) (h3 : 0 ≤ hrRtv) :
    InitD3D hrDevice hrBuffer hrRtv hwnd width height =
      D3DState.mk true
        (some (DXGI_SWAP_CHAIN_DESC.mk 1 (toUInt32 width) (toUInt32 height)
          DXGI_FORMAT_R8G8B8A8_UNORM 60 1 DXGI_USAGE_RENDER_TARGET_OUTPUT hwnd 1 true
          DXGI_SWAP_EFFECT_DISCARD))
        (some (D3D11_VIEWPORT.mk 0 0 (floatOfInt width) (floatOfInt height) 0 1)) := by
  unfold InitD3D
  dsimp only
  rw [if_neg (by omega), if_neg (by omega), if_neg (by omega)]

theorem InitD3D_swapChain (hrDevice hrBuffer hrRtv : Int) (hwnd : Nat) (width height : Int) (h1 : 0 ≤ hrDevice) :
    (InitD3D hrDevice hrBuffer hrRtv hwnd width height).swapChain =
      some (DXGI_SWAP_CHAIN_DESC.mk 1 (toUInt32 width) (toUInt32 height)
        DXGI_FORMAT_R8G8B8A8_UNORM 60 1 DXGI_USAGE_RENDER_TARGET_OUTPUT hwnd 1 true
        DXGI_SWAP_EFFECT_DISCARD) := by
  unfold InitD3D
  dsimp only
  rw [if_neg (by omega)]
  split_ifs <;> rfl

theorem InitD3D_failed (hrDevice hrBuffer hrRtv : Int) (hwnd : Nat) (width height : Int)
    (h : hrDevice < 0 ∨ hrBuffer < 0 ∨ hrRtv < 0) :
    (InitD3D hrDevice hrBuffer hrRtv hwnd width height).ok = false := by
  unfold InitD3D
  dsimp only
  split_ifs
  · rfl
  · rfl
  · rfl
  · omega

theorem renderLoop_d3d (bs : List (List MSG)) : ∀ s : RenderState,
    (renderLoop bs s).d3d = s.d3d := by
  induction bs with
  | nil => intro s; rfl
  | cons b bs ih =>
    intro s
    unfold renderLoop
    split_ifs
    · rw [ih]; rfl
    · rfl

theorem renderLoop_stopped (bs : List (List MSG)) (s : RenderState) (h : s.running = false) :
    renderLoop bs s = s := by
  cases bs with
  | nil => rfl
  | cons b bs => unfold renderLoop; simp [h]

theorem renderLoop_counts (bs : List (List MSG)) : ∀ s : RenderState,
    (renderLoop bs s).presents + s.iterations = s.presents + (renderLoop bs s).iterations := by
  induction bs with
  | nil => intro s; simp [renderLoop, Nat.add_comm]
  | cons b bs ih =>
    intro s
    unfold renderLoop
    split_ifs
    · have := ih (renderIteration s b)
      simp only [renderIteration] at this ⊢
      omega
    · omega

theorem drainMessages_false (b : List MSG) : drainMessages b false = false := by
  unfold drainMessages
  induction b with
  | nil => rfl
  | cons m ms ih => simp only [List.foldl_cons, ite_self]; exact ih

theorem drainMessages_quit (b : List MSG) (h : ∃ m ∈ b, m.message = WM_QUIT) :
    ∀ r : Bool, drainMessages b r = false := by
  induction b with
  | nil => obtain ⟨m, hm, _⟩ := h; cases hm
  | cons m ms ih =>
    intro r
    by_cases hq : m.message = WM_QUIT
    · have h1 : drainMessages (m :: ms) r = drainMessages ms false := by
        simp [drainMessages, hq]
      rw [h1, drainMessages_false]
    · have h1 : drainMessages (m :: ms) r = drainMessages ms r := by
        simp [drainMessages, hq]
      rw [h1]
      apply ih
      obtain ⟨m1, hm1, hq1⟩ := h
      rcases List.mem_cons.mp hm1 with rfl | hm1
      · exact absurd hq1 hq
      · exact ⟨m1, hm1, hq1⟩

theorem drainMessages_no_quit (b : List MSG) (h : ∀ m ∈ b, m.message ≠ WM_QUIT) (r : Bool) :
    drainMessages b r = r := by
  induction b with
  | nil => rfl
  | cons m ms ih =>
    have hq : m.message ≠ WM_QUIT := h m (by simp)
    have h1 : drainMessages (m :: ms) r = drainMessages ms r := by
      simp [drainMessages, hq]
    rw [h1]
    exact ih (fun m1 hm1 => h m1 (by simp [hm1]))

theorem renderLoop_until_quit (pre : List (List MSG)) (q : List MSG) (rest : List (List MSG))
    (hpre : ∀ b ∈ pre, ∀ m ∈ b, m.message ≠ WM_QUIT) (hq : ∃ m ∈ q, m.message = WM_QUIT) :
    ∀ (n k : Nat) (d : D3DState),
      renderLoop (pre ++ q :: rest) (RenderState.mk true n k d) =
        RenderState.mk false (n + pre.length + 1) (k + pre.length + 1) d := by
  induction pre with
  | nil =>
    intro n k d
    simp only [List.nil_append, List.length_nil, Nat.add_zero]
    rw [renderLoop, if_pos rfl]
    simp only [renderIteration]
    rw [drainMessages_quit q hq, renderLoop_stopped _ _ rfl]
  | cons b bs ih =>
    intro n k d
    simp only [List.cons_append, List.length_cons]
    rw [renderLoop, if_pos rfl]
    simp only [renderIteration]
    rw [drainMessages_no_quit b (hpre b (by simp)), ih (fun b1 hb1 => hpre b1 (by simp [hb1]))]
    congr 1 <;> omega

theorem renderLoop_exits (bs : List (List MSG))
    (h : ∃ b ∈ bs, ∃ m ∈ b, m.message = WM_QUIT) :
    ∀ s : RenderState, (renderLoop bs s).running = false := by
  induction bs with
  | nil => obtain ⟨b, hb, _⟩ := h; cases hb
  | cons b bs ih =>
    intro s
    cases hr : s.running with
    | false => rw [renderLoop_stopped _ _ hr, hr]
    | true =>
      rw [renderLoop, if_pos hr]
      by_cases hq : ∃ m ∈ b, m.message = WM_QUIT
      · rw [renderLoop_stopped]
        · simp only [renderIteration]
          exact drainMessages_quit b hq _
        · simp only [renderIteration]
          exact drainMessages_quit b hq _
      · obtain ⟨b1, hb1, hq1⟩ := h
        rcases List.mem_cons.mp hb1 with rfl | hb1
        · exact absurd hq1 hq
        · exact ih ⟨b1, hb1, hq1⟩ _

theorem renderOn_d3d (p : Platform) (m : MonitorInfo) (hw : p.hWnd ≠ 0) :
    (renderOn p m).d3d =
      some (InitD3D p.hrDevice p.hrBuffer p.hrRtv p.hWnd
        (toInt32 (m.info.rcMonitor.right - m.info.rcMonitor.left))
        (toInt32 (m.info.rcMonitor.bottom - m.info.rcMonitor.top))) := by
  unfold renderOn
  dsimp only
  rw [if_neg hw]
  split_ifs <;> rfl

theorem renderOn_no_window (p : Platform) (m : MonitorInfo) (hw : p.hWnd = 0) :
    renderOn p m = RendererRun.mk (some (-1)) (some m)
      (some (WindowArgs.mk m.info.rcMonitor.left m.info.rcMonitor.top
        (toInt32 (m.info.rcMonitor.right - m.info.rcMonitor.left))
        (toInt32 (m.info.rcMonitor.bottom - m.info.rcMonitor.top)))) none none := by
  unfold renderOn
  dsimp only
  rw [if_pos hw]

theorem renderOn_no_d3d (p : Platform) (m : MonitorInfo) (hw : p.hWnd ≠ 0)
    (hok : (InitD3D p.hrDevice p.hrBuffer p.hrRtv p.hWnd
      (toInt32 (m.info.rcMonitor.right - m.info.rcMonitor.left))
      (toInt32 (m.info.rcMonitor.bottom - m.info.rcMonitor.top))).ok = false) :
    renderOn p m = RendererRun.mk (some (-1)) (some m)
      (some (WindowArgs.mk m.info.rcMonitor.left m.info.rcMonitor.top
        (toInt32 (m.info.rcMonitor.right - m.info.rcMonitor.left))
        (toInt32 (m.info.rcMonitor.bottom - m.info.rcMonitor.top))))
      (some (InitD3D p.hrDevice p.hrBuffer p.hrRtv p.hWnd
        (toInt32 (m.info.rcMonitor.right - m.info.rcMonitor.left))
        (toInt32 (m.info.rcMonitor.bottom - m.info.rcMonitor.top)))) none := by
  unfold renderOn
  dsimp only
  rw [if_neg hw, if_pos (by simp [hok])]

theorem renderOn_loop_entered (p : Platform) (m : MonitorInfo) (hw : p.hWnd ≠ 0)
    (hok : (InitD3D p.hrDevice p.hrBuffer p.hrRtv p.hWnd
      (toInt32 (m.info.rcMonitor.right - m.info.rcMonitor.left))
      (toInt32 (m.info.rcMonitor.bottom - m.info.rcMonitor.top))).ok = true) :
    renderOn p m = RendererRun.mk
      (if (renderLoop p.batches (RenderState.mk true 0 0
          (InitD3D p.hrDevice p.hrBuffer p.hrRtv p.hWnd
            (toInt32 (m.info.rcMonitor.right - m.info.rcMonitor.left))
            (toInt32 (m.info.rcMonitor.bottom - m.info.rcMonitor.top))))).running
        then none else some 0)
      (some m)
      (some (WindowArgs.mk m.info.rcMonitor.left m.info.rcMonitor.top
        (toInt32 (m.info.rcMonitor.right - m.info.rcMonitor.left))
        (toInt32 (m.info.rcMonitor.bottom - m.info.rcMonitor.top))))
      (some (InitD3D p.hrDevice p.hrBuffer p.hrRtv p.hWnd
        (toInt32 (m.info.rcMonitor.right - m.info.rcMonitor.left))
        (toInt32 (m.info.rcMonitor.bottom - m.info.rcMonitor.top))))
      (some (renderLoop p.batches (RenderState.mk true 0 0
        (InitD3D p.hrDevice p.hrBuffer p.hrRtv p.hWnd
          (toInt32 (m.info.rcMonitor.right - m.info.rcMonitor.left))
          (toInt32 (m.info.rcMonitor.bottom - m.info.rcMonitor.top)))))) := by
  unfold renderOn
  dsimp only
  rw [if_neg hw, if_neg (by simp [hok])]

theorem renderOn_loop (p : Platform) (m : MonitorInfo) (fin : RenderState)
    (h : (renderOn p m).loop = some fin) : (renderOn p m).d3d = some fin.d3d := by
  by_cases hw : p.hWnd = 0
  · rw [renderOn_no_window p m hw] at h
    exact absurd h (by simp)
  · cases hok : (InitD3D p.hrDevice p.hrBuffer p.hrRtv p.hWnd
      (toInt32 (m.info.rcMonitor.right - m.info.rcMonitor.left))
      (toInt32 (m.info.rcMonitor.bottom - m.info.rcMonitor.top))).ok with
    | false =>
      rw [renderOn_no_d3d p m hw hok] at h
      exact absurd h (by simp)
    | true =>
      rw [renderOn_loop_entered p m hw hok] at h ⊢
      have h3 := Option.some.inj h
      rw [← h3, renderLoop_d3d]

/-- C5. For a selected monitor whose bounds satisfy `right > left` and `bottom > top` (width
and height within the range of `int`), `RunRenderer` creates its window at `(left, top)` with
size `(right - left) x (bottom - top)`; the swap chain description `InitD3D` builds requests
a back buffer of exactly that width and height; the viewport holds the `float` conversions of
that width and height, which are exact up to `2^24`; and the render loop leaves the swap
chain and the viewport as `InitD3D` built them. -/
theorem session_geometry_matches_bounds (p : Platform) (i : Int) (m : MonitorInfo)
    (hm : (RunRenderer p i).target = some m)
    (hw : m.info.rcMonitor.left < m.info.rcMonitor.right)
    (hh : m.info.rcMonitor.top < m.info.rcMonitor.bottom)
    (hW : m.info.rcMonitor.right - m.info.rcMonitor.left < 2147483648)
    (hH : m.info.rcMonitor.bottom - m.info.rcMonitor.top < 2147483648) :
    (RunRenderer p i).window =
        some (WindowArgs.mk m.info.rcMonitor.left m.info.rcMonitor.top
          (m.info.rcMonitor.right - m.info.rcMonitor.left)
          (m.info.rcMonitor.bottom - m.info.rcMonitor.top)) ∧
      (p.hWnd ≠ 0 → 0 ≤ p.hrDevice →
        ∃ st sd, (RunRenderer p i).d3d = some st ∧ st.swapChain = some sd ∧
          sd.Width = m.info.rcMonitor.right - m.info.rcMonitor.left ∧
          sd.Height = m.info.rcMonitor.bottom - m.info.rcMonitor.top) ∧
      (p.hWnd ≠ 0 → 0 ≤ p.hrDevice → 0 ≤ p.hrBuffer → 0 ≤ p.hrRtv →
        ∃ st, (RunRenderer p i).d3d = some st ∧
          st.viewport = some (D3D11_VIEWPORT.mk 0 0
            (floatOfInt (m.info.rcMonitor.right - m.info.rcMonitor.left))
            (floatOfInt (m.info.rcMonitor.bottom - m.info.rcMonitor.top)) 0 1)) ∧
      (m.info.rcMonitor.right - m.info.rcMonitor.left ≤ 16777216 →
        floatOfInt (m.info.rcMonitor.right - m.info.rcMonitor.left)
          = m.info.rcMonitor.right - m.info.rcMonitor.left) ∧
      (m.info.rcMonitor.bottom - m.info.rcMonitor.top ≤ 16777216 →
        floatOfInt (m.info.rcMonitor.bottom - m.info.rcMonitor.top)
          = m.info.rcMonitor.bottom - m.info.rcMonitor.top) ∧
      (∀ fin, (RunRenderer p i).loop = some fin → (RunRenderer p i).d3d = some fin.d3d) ∧
      (∀ (bs : List (List MSG)) (s : RenderState), (renderLoop bs s).d3d = s.d3d) := by
  have hrun := RunRenderer_eq_renderOn p i m hm
  have hcw : toInt32 (m.info.rcMonitor.right - m.info.rcMonitor.left)
      = m.info.rcMonitor.right - m.info.rcMonitor.left :=
    toInt32_of_range _ (by omega) (by omega)
  have hch : toInt32 (m.info.rcMonitor.bottom - m.info.rcMonitor.top)
      = m.info.rcMonitor.bottom - m.info.rcMonitor.top :=
    toInt32_of_range _ (by omega) (by omega)
  rw [hrun]
  refine ⟨?_, ?_, ?_, fun h => floatOfInt_exact _ (by omega) h,
    fun h => floatOfInt_exact _ (by omega) h,
    fun fin hfin => renderOn_loop p m fin hfin, renderLoop_d3d⟩
  · rw [renderOn_window, hcw, hch]
  · intro hwnd hdev
    refine ⟨_, _, renderOn_d3d p m hwnd, InitD3D_swapChain _ _ _ _ _ _ hdev, ?_, ?_⟩
    · show toUInt32 _ = _
      rw [hcw]; unfold toUInt32; omega
    · show toUInt32 _ = _
      rw [hch]; unfold toUInt32; omega
  · intro hwnd hdev hbuf hrtv
    refine ⟨_, renderOn_d3d p m hwnd, ?_⟩
    rw [InitD3D_ok _ _ _ _ _ _ hdev hbuf hrtv, hcw, hch]

theorem session_geometry_matches_bounds_witness :
    (RunRenderer samplePlatform 5).window = some (WindowArgs.mk 0 0 1920 1080) ∧
      (∃ st sd, (RunRenderer samplePlatform 5).d3d = some st ∧ st.swapChain = some sd ∧
        sd.Width = 1920 ∧ sd.Height = 1080) ∧
      (∃ st, (RunRenderer samplePlatform 5).d3d = some st ∧
        st.viewport = some (D3D11_VIEWPORT.mk 0 0 (floatOfInt 1920) (floatOfInt 1080) 0 1)) ∧
      floatOfInt 1920 = 1920 ∧ floatOfInt 1080 = 1080 :=
  have h := session_geometry_matches_bounds samplePlatform 5
    (MonitorInfo.mk 101 (MONITORINFOEXW.mk (RECT.mk 0 0 1920 1080) [49]) unknownMonitor)
    (by decide) (by decide) (by decide) (by decide) (by decide)
  ⟨h.1, h.2.1 (by decide) (by decide), h.2.2.1 (by decide) (by decide) (by decide) (by decide),
    h.2.2.2.1 (by decide), h.2.2.2.2.1 (by decide)⟩

/-! ## The render loop -/

/-- C8, as stated, fails: an iteration that drains the quit message still clears and
presents, so a run of one iteration presents once and a run of two iterations twice. -/
theorem quit_iteration_still_presents :
    (renderIteration (RenderState.mk true 0 0 (D3DState.mk true none none))
        [quitMessage]).presents = 1 ∧
      (renderLoop [[], [quitMessage]]
        (RenderState.mk true 0 0 (D3DState.mk true none none))).iterations = 2 ∧
      (renderLoop [[], [quitMessage]]
        (RenderState.mk true 0 0 (D3DState.mk true none none))).presents = 2 ∧
      (renderLoop [[], [quitMessage]]
        (RenderState.mk true 0 0 (D3DState.mk true none none))).presents ≠ 2 - 1 := by
  decide

/-- C8, amended. Every iteration of the render loop clears and presents exactly once,
the one whose drained messages include the quit message too; that iteration leaves the loop
not running, an iteration without a quit message leaves it running; once not running
nothing more is presented; so a run whose `k`-th drain is the first to hold the quit
message performs `k` iterations and `k` presents.  `RendererProc` posts the quit message for
`WM_DESTROY` and for a key-down of `Q` with the control key held. -/
theorem render_loop_presents_each_iteration (pre : List (List MSG)) (q : List MSG)
    (rest : List (List MSG)) (d : D3DState)
    (hpre : ∀ b ∈ pre, ∀ m ∈ b, m.message ≠ WM_QUIT)
    (hq : ∃ m ∈ q, m.message = WM_QUIT) :
    renderLoop (pre ++ q :: rest) (RenderState.mk true 0 0 d) =
        RenderState.mk false (pre.length + 1) (pre.length + 1) d ∧
      (∀ s : RenderState, (renderIteration s q).presents = s.presents + 1 ∧
        (renderIteration s q).running = false) ∧
      (∀ (s : RenderState) (b : List MSG), (renderIteration s b).presents = s.presents + 1) ∧
      (∀ (s : RenderState) (b : List MSG), (∀ m ∈ b, m.message ≠ WM_QUIT) →
        (renderIteration s b).running = s.running) ∧
      (∀ (bs : List (List MSG)) (s : RenderState), s.running = false → renderLoop bs s = s) ∧
      (∀ (bs : List (List MSG)) (s : RenderState),
        (renderLoop bs s).presents + s.iterations = s.presents + (renderLoop bs s).iterations) ∧
      (∀ w k : Nat, RendererProc (MSG.mk WM_DESTROY w k) = true) ∧
      (∀ k : Nat, k &&& 0x8000 ≠ 0 → RendererProc (MSG.mk WM_KEYDOWN 81 k) = true) := by
  refine ⟨?_, ?_, fun s b => rfl, ?_, renderLoop_stopped, renderLoop_counts, ?_, ?_⟩
  · have := renderLoop_until_quit pre q rest hpre hq 0 0 d
    simpa using this
  · intro s
    exact ⟨rfl, drainMessages_quit q hq _⟩
  · intro s b hb
    exact drainMessages_no_quit b hb _
  · intro w k
    simp [RendererProc, WM_DESTROY, WM_KEYDOWN]
  · intro k hk
    simp [RendererProc, hk]

theorem render_loop_presents_each_iteration_witness :
    renderLoop ([[], [MSG.mk WM_KEYDOWN 65 0]] ++
          [MSG.mk WM_KEYDOWN 81 0x8000, quitMessage] :: [[]])
        (RenderState.mk true 0 0 (D3DState.mk true none none)) =
      RenderState.mk false 3 3 (D3DState.mk true none none) :=
  (render_loop_presents_each_iteration [[], [MSG.mk WM_KEYDOWN 65 0]]
    [MSG.mk WM_KEYDOWN 81 0x8000, quitMessage] [[]]
    (D3DState.mk true none none) (by decide) (by decide)).1

/-! ## Exit status -/

theorem _wtoi_nonneg (s : List Char) : 0 ≤ _wtoi s := by
  unfold _wtoi
  split_ifs <;> omega

theorem CheckArgs_monitor (cmd : List Char) (h : found cmd monitorArg = true) :
    0 ≤ CheckArgs cmd := by
  unfold CheckArgs
  rw [if_pos h]
  split
  · exact le_refl _
  · exact _wtoi_nonneg _

theorem CheckArgs_help (cmd : List Char) (h1 : found cmd monitorArg = false)
    (h2 : found cmd helpArg = true) : CheckArgs cmd = RUN_HELP := by
  unfold CheckArgs
  rw [if_neg (by simp [h1]), if_pos h2]

theorem CheckArgs_gui (cmd : List Char) (h1 : found cmd monitorArg = false)
    (h2 : found cmd helpArg = false) : CheckArgs cmd = RUN_GUI := by
  unfold CheckArgs
  rw [if_neg (by simp [h1]), if_neg (by simp [h2])]

theorem wWinMain_monitor (p : Platform) (cmd : List Char) (h : found cmd monitorArg = true) :
    wWinMain p cmd = (RunRenderer p (CheckArgs cmd)).status := by
  have h0 := CheckArgs_monitor cmd h
  unfold wWinMain
  rw [if_neg (by unfold RUN_HELP; omega), if_neg (by unfold RUN_GUI; omega)]

theorem wWinMain_help (p : Platform) (cmd : List Char) (h1 : found cmd monitorArg = false)
    (h2 : found cmd helpArg = true) :
    wWinMain p cmd = if p.attachConsole then some 0 else some (-1) := by
  unfold wWinMain
  rw [if_pos (CheckArgs_help cmd h1 h2)]
  cases p.attachConsole <;> rfl

theorem wWinMain_gui (p : Platform) (cmd : List Char) (h1 : found cmd monitorArg = false)
    (h2 : found cmd helpArg = false) : wWinMain p cmd = RunDialogGui p := by
  unfold wWinMain
  rw [CheckArgs_gui cmd h1 h2, if_neg (by decide), if_pos rfl]

theorem renderOn_status_values (p : Platform) (m : MonitorInfo) (s : Int)
    (h : (renderOn p m).status = some s) : s = 0 ∨ s = -1 := by
  by_cases hw : p.hWnd = 0
  · rw [renderOn_no_window p m hw] at h
    exact Or.inr (Option.some.inj h).symm
  · cases hok : (InitD3D p.hrDevice p.hrBuffer p.hrRtv p.hWnd
      (toInt32 (m.info.rcMonitor.right - m.info.rcMonitor.left))
      (toInt32 (m.info.rcMonitor.bottom - m.info.rcMonitor.top))).ok with
    | false =>
      rw [renderOn_no_d3d p m hw hok] at h
      exact Or.inr (Option.some.inj h).symm
    | true =>
      rw [renderOn_loop_entered p m hw hok] at h
      simp only at h
      split_ifs at h
      exact Or.inl (Option.some.inj h).symm

theorem RunRenderer_status_values (p : Platform) (i : Int) (s : Int)
    (h : (RunRenderer p i).status = some s) : s = 0 ∨ s = -1 := by
  by_cases he : EnumerateMonitors p.cv p.outputs = []
  · rw [RunRenderer_empty p i he] at h
    exact Or.inr (Option.some.inj h).symm
  · obtain ⟨m, _, hm⟩ := RunRenderer_nonempty p i he
    rw [hm] at h
    exact renderOn_status_values p m s h

theorem RunRenderer_clean_shutdown (p : Platform) (i : Int)
    (hne : EnumerateMonitors p.cv p.outputs ≠ []) (hw : p.hWnd ≠ 0)
    (h1 : 0 ≤ p.hrDevice) (h2 : 0 ≤ p.hrBuffer) (h3 : 0 ≤ p.hrRtv)
    (hq : ∃ b ∈ p.batches, ∃ m ∈ b, m.message = WM_QUIT) :
    (RunRenderer p i).status = some 0 := by
  obtain ⟨m, _, hm⟩ := RunRenderer_nonempty p i hne
  have hok : (InitD3D p.hrDevice p.hrBuffer p.hrRtv p.hWnd
      (toInt32 (m.info.rcMonitor.right - m.info.rcMonitor.left))
      (toInt32 (m.info.rcMonitor.bottom - m.info.rcMonitor.top))).ok = true := by
    rw [InitD3D_ok _ _ _ _ _ _ h1 h2 h3]
  rw [hm, renderOn_loop_entered p m hw hok]
  simp only
  rw [renderLoop_exits p.batches hq]
  rfl

theorem RunRenderer_creation_fails (p : Platform) (i : Int)
    (hne : EnumerateMonitors p.cv p.outputs ≠ [])
    (hf : p.hWnd = 0 ∨ p.hrDevice < 0 ∨ p.hrBuffer < 0 ∨ p.hrRtv < 0) :
    (RunRenderer p i).status = some (-1) := by
  obtain ⟨m, _, hm⟩ := RunRenderer_nonempty p i hne
  rw [hm]
  by_cases hw : p.hWnd = 0
  · rw [renderOn_no_window p m hw]
  · rcases hf with hf | hf
    · exact absurd hf hw
    · rw [renderOn_no_d3d p m hw (InitD3D_failed _ _ _ _ _ _ hf)]

theorem RunDialogGui_empty (p : Platform) (he : EnumerateMonitors p.cv p.dialogOutputs = []) :
    RunDialogGui p = some (-1) := by
  unfold RunDialogGui
  simp [he]

theorem RunDialogGui_nonempty (p : Platform)
    (hne : EnumerateMonitors p.cv p.dialogOutputs ≠ []) :
    RunDialogGui p =
      if toInt32 (DialogBoxParamW p.dialog) = -IDCANCEL then some 0
      else if toInt32 (DialogBoxParamW p.dialog) ≥ 0 ∧
          toInt32 (DialogBoxParamW p.dialog)
            < toInt32 (EnumerateMonitors p.cv p.dialogOutputs).length
        then (RunRenderer p (toInt32 (DialogBoxParamW p.dialog))).status
      else some (-1) := by
  have hemp : (EnumerateMonitors p.cv p.dialogOutputs).isEmpty = false := by
    cases h : EnumerateMonitors p.cv p.dialogOutputs with
    | nil => exact absurd h hne
    | cons a as => rfl
  unfold RunDialogGui
  simp only [hemp, Bool.false_eq_true, if_false]

theorem RunDialogGui_status_values (p : Platform) (s : Int) (h : RunDialogGui p = some s) :
    s = 0 ∨ s = -1 := by
  by_cases he : EnumerateMonitors p.cv p.dialogOutputs = []
  · rw [RunDialogGui_empty p he] at h
    exact Or.inr (Option.some.inj h).symm
  · rw [RunDialogGui_nonempty p he] at h
    split_ifs at h
    · exact Or.inl (Option.some.inj h).symm
    · exact RunRenderer_status_values p _ s h
    · exact Or.inr (Option.some.inj h).symm

theorem wWinMain_status_values (p : Platform) (cmd : List Char) (s : Int)
    (h : wWinMain p cmd = some s) : s = 0 ∨ s = -1 := by
  unfold wWinMain at h
  split_ifs at h
  · exact Or.inr (Option.some.inj h).symm
  · exact Or.inl (Option.some.inj h).symm
  · exact RunDialogGui_status_values p s h
  · exact RunRenderer_status_values p _ s h

/-- C6. The exit status as a function of the command line and the platform outcomes: every
status is `0` or negative; it is `0` when the help text is displayed (command line with
`--help` and without `--monitor`, console attached), when the user cancels or closes the
picker, and when the render loop is entered and a drain returns the quit message; it is `-1`
when no display is found, when the picker yields a value that is neither the cancel value nor
an index in `0 .. n - 1`, and when the window, the device and swap chain, the back buffer or
the render target view cannot be created. -/
theorem exit_status_by_outcome (p : Platform) (cmd : List Char) :
    (∀ s, wWinMain p cmd = some s → s = 0 ∨ (s ≠ 0 ∧ s < 0)) ∧
      (found cmd monitorArg = false → found cmd helpArg = true → p.attachConsole = true →
        wWinMain p cmd = some 0) ∧
      (found cmd monitorArg = true → wWinMain p cmd = (RunRenderer p (CheckArgs cmd)).status) ∧
      (found cmd monitorArg = false → found cmd helpArg = false →
        wWinMain p cmd = RunDialogGui p) ∧
      (EnumerateMonitors p.cv p.dialogOutputs = [] → RunDialogGui p = some (-1)) ∧
      (EnumerateMonitors p.cv p.dialogOutputs ≠ [] →
        (p.dialog = some DialogEvent.cancel ∨ p.dialog = some DialogEvent.close) →
        RunDialogGui p = some 0) ∧
      (EnumerateMonitors p.cv p.dialogOutputs ≠ [] →
        toInt32 (DialogBoxParamW p.dialog) ≠ -IDCANCEL →
        ¬ (0 ≤ toInt32 (DialogBoxParamW p.dialog) ∧
          toInt32 (DialogBoxParamW p.dialog) < (EnumerateMonitors p.cv p.dialogOutputs).length) →
        RunDialogGui p = some (-1)) ∧
      (EnumerateMonitors p.cv p.dialogOutputs ≠ [] →
        (EnumerateMonitors p.cv p.dialogOutputs).length < 2147483648 →
        (0 ≤ toInt32 (DialogBoxParamW p.dialog) ∧
          toInt32 (DialogBoxParamW p.dialog) < (EnumerateMonitors p.cv p.dialogOutputs).length) →
        RunDialogGui p = (RunRenderer p (toInt32 (DialogBoxParamW p.dialog))).status) ∧
      (∀ i : Int,
        (EnumerateMonitors p.cv p.outputs = [] → (RunRenderer p i).status = some (-1)) ∧
        (EnumerateMonitors p.cv p.outputs ≠ [] →
          (p.hWnd = 0 ∨ p.hrDevice < 0 ∨ p.hrBuffer < 0 ∨ p.hrRtv < 0) →
          (RunRenderer p i).status = some (-1)) ∧
        (EnumerateMonitors p.cv p.outputs ≠ [] → p.hWnd ≠ 0 → 0 ≤ p.hrDevice →
          0 ≤ p.hrBuffer → 0 ≤ p.hrRtv →
          (∃ b ∈ p.batches, ∃ m ∈ b, m.message = WM_QUIT) →
          (RunRenderer p i).status = some 0)) := by
  refine ⟨?_, ?_, wWinMain_monitor p cmd, wWinMain_gui p cmd, RunDialogGui_empty p, ?_, ?_, ?_,
    ?_⟩
  · intro s hs
    rcases wWinMain_status_values p cmd s hs with h | h
    · exact Or.inl h
    · exact Or.inr (by omega)
  · intro h1 h2 h3
    rw [wWinMain_help p cmd h1 h2, h3]
    rfl
  · intro hne hc
    rw [RunDialogGui_nonempty p hne]
    have hsel : toInt32 (DialogBoxParamW p.dialog) = -IDCANCEL := by
      rcases hc with hc | hc <;> rw [hc] <;> decide
    rw [if_pos hsel]
  · intro hne hsel hbad
    rw [RunDialogGui_nonempty p hne, if_neg hsel, if_neg]
    intro hc
    apply hbad
    have hle := toInt32_le ((EnumerateMonitors p.cv p.dialogOutputs).length : Int) (by omega)
    omega
  · intro hne hn hsel
    rw [RunDialogGui_nonempty p hne, if_neg, if_pos]
    · rw [toInt32_of_range ((EnumerateMonitors p.cv p.dialogOutputs).length : Int)
        (by omega) (by omega)]
      omega
    · unfold IDCANCEL
      omega
  · intro i
    exact ⟨fun he => by rw [RunRenderer_empty p i he],
      RunRenderer_creation_fails p i, RunRenderer_clean_shutdown p i⟩

theorem exit_status_by_outcome_witness :
    wWinMain samplePlatform helpArg = some 0 ∧
      wWinMain samplePlatform (monitorArg ++ [' ', '1']) = some 0 :=
  ⟨(exit_status_by_outcome samplePlatform helpArg).2.1 (by decide) (by decide) rfl,
    by
      rw [(exit_status_by_outcome samplePlatform (monitorArg ++ [' ', '1'])).2.2.1 (by decide)]
      exact ((exit_status_by_outcome samplePlatform (monitorArg ++ [' ', '1'])).2.2.2.2.2.2.2.2
        _).2.2 (by decide) (by decide) (by decide) (by decide) (by decide)
        ⟨[MSG.mk WM_KEYDOWN 81 0x8000, quitMessage], by decide, quitMessage, by decide, rfl⟩⟩

end ScreenBlackout
